import Mathlib

/-!
Open-Leaf Reader: pagination state machine and persistence handlers.

A shallow embedding of

* the reader client of `public/js/reader.js` (`loadBook`, `renderPage`,
  `renderPages`, `flipNext`, `flipPrev`, `goToPage`, `updateNavigation`,
  `saveProgress` and the page-input / slider handlers), and
* the reading-progress, favorites, account, book-upload and book-deletion
  routes of `server.js`, with the multer storage callbacks.

Modelling conventions.

* JavaScript numbers that hold page numbers and row ids are `Int`.
  `parseInt` yielding `NaN` is `none`.  An integer literal of a JSON request
  body becomes the nearest double (`jsonInteger`).
* The module-level variables of `reader.js` and the parts of the DOM the
  navigation code reads or writes form the record `Reader`.  The children of
  the `#book` element are a list of page elements, each carrying its
  `data-page` number and the navigation zone attached to it.
* `pdfDoc : Int → Bool` says for which page numbers `renderPage` obtains a
  canvas (`false` is the `catch` branch returning `null`).
* `setTimeout` callbacks are queued in `Reader.timers`; `fireTimer i` runs the
  `i`-th pending callback.  Each handler and each callback runs to completion
  (the `await`s inside them are not interleaved with other events).
* `fetch('/api/progress', POST ...)` appends the request body to
  `Reader.saved`.
* CSS transforms, the header auto-hide, fullscreen, the settings panel and
  the font-size buttons are not modelled.
* The database is a record of row lists.  Values bound to the INTEGER columns
  `user_id` / `book_id` are the integers SQLite stores after applying column
  affinity.  Whether foreign keys are enforced is the field
  `Db.foreign_keys`: `server.js` opens the database with `better-sqlite3`,
  which enforces them unless a pragma turns that off, and sets no pragma, so
  the databases of the server have `foreign_keys = true`.
* The slider of the reader is a range control: the value a drag gives it is
  `sliderValue`, between the `min` attribute of the markup (`reader.html`,
  not among the sources: a parameter) and the `max` that `loadBook` sets.
* The `bcrypt` module is the parameter `Bcrypt`; the files stored below
  `public` are a list of paths; `path.extname` and the values of `uuidv4()`
  are parameters of the upload route.
-/

namespace OpenLeaf

/-! ## Reader client (`public/js/reader.js`) -/

/-- Body of the `POST /api/progress` request built by `saveProgress`. -/
structure ProgressWrite where
  bookId : String
  currentPage : Int
  totalPages : Int
deriving DecidableEq, Repr

/-- The two kinds of `page-nav-zone` elements. -/
inductive NavZone where
  | prev
  | next
deriving DecidableEq, Repr

/-- A `.page` child of `#book`: its `data-page` and its navigation zone. -/
structure PageElement where
  dataPage : Int
  navZone : NavZone
deriving DecidableEq, Repr

/-- Pending `setTimeout` callbacks of the reader. -/
inductive Timer where
  | flipNextCommit
  | flipPrevAnimate (newLeftPageNum newRightPageNum : Int)
  | flipPrevCommit
  | toastHide
deriving DecidableEq, Repr

/-- The `book` object of the `GET /api/books/:id` response, as far as
`loadBook` reads it. -/
structure BookData where
  title : String
  author : String
  file_path : String
  is_favorite : Int
deriving DecidableEq, Repr

/-- Module state of `reader.js` (lines 26-30) together with the DOM state the
navigation code touches. -/
structure Reader where
  currentPage : Int
  totalPages : Int
  bookId : String
  isFlipping : Bool
  book : List PageElement
  pageInput : Int
  pageInputMax : Int
  pageSlider : Int
  pageSliderMax : Int
  totalPagesSpan : Int
  prevDisabled : Bool
  nextDisabled : Bool
  bookTitle : String
  bookAuthor : String
  favoriteActive : Bool
  loadingHidden : Bool
  toastText : String
  toastClass : String
  toastVisible : Bool
  saved : List ProgressWrite
  timers : List Timer
deriving DecidableEq, Repr

/-- Function `showToast(message, type)`, lines 38-43. -/
def showToast (message kind : String) (s : Reader) : Reader :=
  { s with toastText := message, toastClass := "toast " ++ kind, toastVisible := true,
           timers := s.timers ++ [Timer.toastHide] }

/-- Function `showLoading(show)`, lines 46-48. -/
def showLoading (shown : Bool) (s : Reader) : Reader :=
  { s with loadingHidden := !shown }

/-- Function `renderPage(pageNum)`, lines 119-142: the canvas of the page, or `none`
when rendering throws. -/
def renderPage (pdfDoc : Int → Bool) (pageNum : Int) : Option Int :=
  if pdfDoc pageNum then some pageNum else none

/-- Function `createPageElement(canvas, pageNum)`, lines 145-157, with the navigation
zone its caller appends to it. -/
def createPageElement (_canvas : Int) (pageNum : Int) (zone : NavZone) : PageElement :=
  { dataPage := pageNum, navZone := zone }

/-- Lookup `book.querySelector('.page[data-page="n"]')`. -/
def querySelector (s : Reader) (n : Int) : Option PageElement :=
  s.book.find? (fun p => decide (p.dataPage = n))

/-- Function `updateNavigation()`, lines 321-324. -/
def updateNavigation (s : Reader) : Reader :=
  { s with prevDisabled := decide (s.currentPage ≤ 1),
           nextDisabled := decide (s.currentPage ≥ s.totalPages) }

/-- Function `saveProgress()`, lines 327-341. -/
def saveProgress (s : Reader) : Reader :=
  { s with saved := s.saved ++
      [{ bookId := s.bookId, currentPage := s.currentPage, totalPages := s.totalPages }] }

/-- Function `renderPages()`, lines 160-195. -/
def renderPages (pdfDoc : Int → Bool) (s : Reader) : Reader :=
  let s : Reader := { s with book := [] }
  let s : Reader := match renderPage pdfDoc s.currentPage with
    | some leftCanvas =>
        { s with book := s.book ++ [createPageElement leftCanvas s.currentPage NavZone.prev] }
    | none => s
  let s : Reader := if s.currentPage < s.totalPages then
      match renderPage pdfDoc (s.currentPage + 1) with
      | some rightCanvas =>
          let rightPage := createPageElement rightCanvas (s.currentPage + 1) NavZone.next
          { s with book := s.book ++ [rightPage] }
      | none => s
    else s
  updateNavigation s

/-- Function `goToPage(pageNum)`, lines 308-318. -/
def goToPage (pdfDoc : Int → Bool) (s : Reader) (pageNum : Int) : Reader :=
  let pageNum := max 1 (min pageNum s.totalPages)
  let s : Reader := { s with currentPage := pageNum }
  let s : Reader := { s with pageInput := s.currentPage, pageSlider := s.currentPage }
  let s : Reader := renderPages pdfDoc s
  let s : Reader := updateNavigation s
  saveProgress s

/-- Function `flipNext()`, lines 198-228, up to the point where the animation timer is
set. -/
def flipNext (s : Reader) : Reader :=
  if s.isFlipping = true ∨ s.currentPage ≥ s.totalPages then s
  else
    let s : Reader := { s with isFlipping := true }
    let leftPage := querySelector s s.currentPage
    let rightPage := querySelector s (s.currentPage + 1)
    if leftPage.isSome = true ∧ rightPage.isSome = true then
      { s with timers := s.timers ++ [Timer.flipNextCommit] }
    else
      { s with isFlipping := false }

/-- Call `book.insertBefore(newNode, ref)` where `ref` is the first page element
whose `data-page` is `refPage`. -/
def insertBefore (newNode : PageElement) (refPage : Int) : List PageElement → List PageElement
  | [] => [newNode]
  | p :: ps =>
      if p.dataPage = refPage then newNode :: p :: ps
      else p :: insertBefore newNode refPage ps

/-- Function `flipPrev()`, lines 231-305, up to the point where the first timer is
set. -/
def flipPrev (pdfDoc : Int → Bool) (s : Reader) : Reader :=
  if s.isFlipping = true ∨ s.currentPage ≤ 1 then s
  else
    let s : Reader := { s with isFlipping := true }
    let currentLeftPage := querySelector s s.currentPage
    if currentLeftPage.isSome = true then
      let newLeftPageNum := s.currentPage - 2
      let newRightPageNum := s.currentPage - 1
      let s : Reader := if newLeftPageNum ≥ 1 then
          match renderPage pdfDoc newLeftPageNum with
          | some leftCanvas =>
              let newLeftPage := createPageElement leftCanvas newLeftPageNum NavZone.prev
              { s with book := insertBefore newLeftPage s.currentPage s.book }
          | none => s
        else s
      let s : Reader := if newRightPageNum ≥ 1 then
          match renderPage pdfDoc newRightPageNum with
          | some rightCanvas =>
              let newRightPage := createPageElement rightCanvas newRightPageNum NavZone.next
              { s with book := insertBefore newRightPage s.currentPage s.book }
          | none => s
        else s
      { s with timers := s.timers ++ [Timer.flipPrevAnimate newLeftPageNum newRightPageNum] }
    else
      { s with isFlipping := false }

/-- Body of a pending `setTimeout` callback. -/
def runTimer (pdfDoc : Int → Bool) (s : Reader) : Timer → Reader
  | Timer.flipNextCommit =>
      -- lines 217-224
      let s : Reader := { s with currentPage := s.currentPage + 2 }
      let s : Reader :=
        if s.currentPage > s.totalPages then { s with currentPage := s.totalPages } else s
      let s : Reader := renderPages pdfDoc s
      let s : Reader := goToPage pdfDoc s s.currentPage
      { s with isFlipping := false }
  | Timer.flipPrevAnimate _ _ =>
      -- lines 288-301: only styles change, then the commit timer is set
      { s with timers := s.timers ++ [Timer.flipPrevCommit] }
  | Timer.flipPrevCommit =>
      -- lines 295-300
      let s : Reader := { s with currentPage := max 1 (s.currentPage - 2) }
      let s : Reader := renderPages pdfDoc s
      let s : Reader := goToPage pdfDoc s s.currentPage
      { s with isFlipping := false }
  | Timer.toastHide =>
      { s with toastVisible := false }

/-- The `i`-th pending timer fires. -/
def fireTimer (pdfDoc : Int → Bool) (i : Nat) (s : Reader) : Reader :=
  match s.timers.get? i with
  | none => s
  | some t => runTimer pdfDoc { s with timers := s.timers.eraseIdx i } t

/-- The `change` handler of `#page-input`, lines 347-354; `page` is
`parseInt(pageInput.value)`. -/
def pageInputChange (pdfDoc : Int → Bool) (s : Reader) (page : Option Int) : Reader :=
  match page with
  | some page =>
      if page ≥ 1 ∧ page ≤ s.totalPages then goToPage pdfDoc s page
      else { s with pageInput := s.currentPage }
  | none => { s with pageInput := s.currentPage }

/-- The `input` handler of `#page-slider`, lines 356-366, as a function of
`page`, the number `parseInt(pageSlider.value)` it reads; the values the
control can hold are those of `sliderValue`.  The handler does not await
`renderPages()`: the model runs the render to completion, as every handler,
so the page elements of two overlapping renders are outside it (the
assignment to `currentPage` is synchronous). -/
def pageSliderInput (pdfDoc : Int → Bool) (s : Reader) (page : Int) : Reader :=
  let s : Reader := { s with pageSlider := page }
  if page ≠ s.currentPage then
    let s : Reader := { s with currentPage := page }
    let s : Reader := { s with pageInput := s.currentPage }
    let s : Reader := renderPages pdfDoc s
    let s : Reader := updateNavigation s
    saveProgress s
  else s

/-- Function `loadBook()`, lines 63-116.  `bookData` is the parsed response of
`GET /api/books/:id` (`none` when the response is not ok), `progress` the
`current_page` of the parsed response of `GET /api/progress/:bookId` (`none`
when it carries no `progress`), `numPages` the page count of the loaded
document (`none` when loading it fails). -/
def loadBook (pdfDoc : Int → Bool) (s : Reader) (bookData : Option BookData)
    (progress : Option Int) (numPages : Option Int) : Reader :=
  let failed := fun (s : Reader) => showLoading false (showToast "Failed to load book" "error" s)
  let s : Reader := showLoading true s
  match bookData with
  | none => failed s
  | some b =>
    let s : Reader := { s with bookTitle := b.title, bookAuthor := "by " ++ b.title }
    let s : Reader := if b.is_favorite ≠ 0 then { s with favoriteActive := true } else s
    match progress with
    | none => failed s
    | some current_page =>
      let s : Reader := { s with currentPage := if current_page ≠ 0 then current_page else 1 }
      match numPages with
      | none => failed s
      | some n =>
        let s : Reader := { s with totalPages := n }
        let s : Reader := { s with totalPagesSpan := s.totalPages }
        let s : Reader := { s with pageInputMax := s.totalPages, pageSliderMax := s.totalPages }
        let s : Reader := { s with pageInput := s.currentPage, pageSlider := s.currentPage }
        let s : Reader := renderPages pdfDoc s
        let s : Reader := goToPage pdfDoc s s.currentPage
        let s : Reader := showLoading false s
        saveProgress s

/-- User and timer events of a loaded reader. -/
inductive Event where
  | flipNext
  | flipPrev
  | goToPage (n : Int)
  | pageInputChange (page : Option Int)
  | pageSliderInput (page : Int)
  | timer (i : Nat)
deriving DecidableEq, Repr

/-- One event handled to completion. -/
def step (pdfDoc : Int → Bool) (s : Reader) : Event → Reader
  | Event.flipNext => flipNext s
  | Event.flipPrev => flipPrev pdfDoc s
  | Event.goToPage n => goToPage pdfDoc s n
  | Event.pageInputChange page => pageInputChange pdfDoc s page
  | Event.pageSliderInput page => pageSliderInput pdfDoc s page
  | Event.timer i => fireTimer pdfDoc i s

/-- A sequence of events handled in order. -/
def run (pdfDoc : Int → Bool) (s : Reader) (evs : List Event) : Reader :=
  evs.foldl (step pdfDoc) s

/-- The module state before `loadBook` runs (lines 26-30), for the book id
taken from the URL. -/
def initialReader (bookId : String) : Reader :=
  { currentPage := 1, totalPages := 0, bookId := bookId, isFlipping := false,
    book := [], pageInput := 1, pageInputMax := 1, pageSlider := 1, pageSliderMax := 1,
    totalPagesSpan := 0, prevDisabled := false, nextDisabled := false,
    bookTitle := "", bookAuthor := "", favoriteActive := false, loadingHidden := false,
    toastText := "", toastClass := "toast", toastVisible := false,
    saved := [], timers := [] }

/-- The page elements `renderPages` leaves in `#book` for a given
`currentPage` and `totalPages` (lines 164-192 read as one expression). -/
def spreadOf (pdfDoc : Int → Bool) (currentPage totalPages : Int) : List PageElement :=
  (if pdfDoc currentPage then [(⟨currentPage, NavZone.prev⟩ : PageElement)] else []) ++
  (if currentPage < totalPages ∧ pdfDoc (currentPage + 1) = true
    then [(⟨currentPage + 1, NavZone.next⟩ : PageElement)] else [])

/-- A slider event whose value lies in `[1, n]`; other events are not
restricted. -/
def Event.sliderWithin (n : Int) : Event → Prop
  | Event.pageSliderInput page => 1 ≤ page ∧ page ≤ n
  | _ => True

instance Event.decidableSliderWithin (n : Int) (e : Event) : Decidable (e.sliderWithin n) := by
  cases e <;> unfold Event.sliderWithin <;> infer_instance

/-- The value `#page-slider` holds after a drag towards position `raw`.  A
range control keeps its value within `[min, max]`, at `min` when `max < min`.
Its `max` is the attribute `loadBook` sets on line 96; its `min` is an
attribute of the markup in `reader.html`, which is not among the sources,
and is the parameter `sliderMin`. -/
def sliderValue (sliderMin : Int) (s : Reader) (raw : Int) : Int :=
  max sliderMin (min raw s.pageSliderMax)

/-- A drag of `#page-slider` towards position `raw`: the control takes its
value and the `input` handler runs on it. -/
def sliderDrag (sliderMin : Int) (pdfDoc : Int → Bool) (s : Reader) (raw : Int) : Reader :=
  pageSliderInput pdfDoc s (sliderValue sliderMin s raw)

/-- One event of the page handled to completion: as `step`, with a slider
event carrying the position dragged to. -/
def stepOnPage (sliderMin : Int) (pdfDoc : Int → Bool) (s : Reader) : Event → Reader
  | Event.flipNext => flipNext s
  | Event.flipPrev => flipPrev pdfDoc s
  | Event.goToPage n => goToPage pdfDoc s n
  | Event.pageInputChange page => pageInputChange pdfDoc s page
  | Event.pageSliderInput raw => sliderDrag sliderMin pdfDoc s raw
  | Event.timer i => fireTimer pdfDoc i s

/-- A sequence of events of the page handled in order. -/
def runOnPage (sliderMin : Int) (pdfDoc : Int → Bool) (s : Reader) (evs : List Event) :
    Reader :=
  evs.foldl (stepOnPage sliderMin pdfDoc) s

/-! ## Server (`server.js`): tables -/

/-- Row of `users` (lines 31-37). -/
structure UserRow where
  id : Int
  username : String
  email : String
  password_hash : String
  created_at : Nat
deriving DecidableEq, Repr

/-- Row of `books` (lines 39-49). -/
structure BookRow where
  id : Int
  title : String
  author : String
  description : String
  file_path : String
  cover_path : String
  uploaded_by : Option Int
  created_at : Nat
deriving DecidableEq, Repr

/-- Row of `reading_progress` (lines 51-61). -/
structure ProgressRow where
  id : Int
  user_id : Int
  book_id : Int
  current_page : Int
  total_pages : Int
  last_accessed : Nat
deriving DecidableEq, Repr

/-- Row of `favorites` (lines 63-71). -/
structure FavoriteRow where
  id : Int
  user_id : Int
  book_id : Int
  created_at : Nat
deriving DecidableEq, Repr

/-- The database `library.db`: the four tables, their AUTOINCREMENT
counters, and whether foreign keys are enforced (`true` in the server, which
opens the database with the default of `better-sqlite3`). -/
structure Db where
  users : List UserRow
  books : List BookRow
  reading_progress : List ProgressRow
  favorites : List FavoriteRow
  users_seq : Int
  books_seq : Int
  reading_progress_seq : Int
  favorites_seq : Int
  foreign_keys : Bool
deriving DecidableEq, Repr

/-- What a route sends: a JSON body with status 200, or a status with
`{ error }`. -/
inductive Response (α : Type) where
  | json (body : α)
  | error (status : Nat) (error : String)
deriving DecidableEq, Repr

/-- Middleware `requireAuth` (lines 121-126): the acting user, or `none` when
`req.session.userId` is falsy. -/
def requireAuth (session : Option Int) : Option Int :=
  match session with
  | some userId => if userId ≠ 0 then some userId else none
  | none => none

/-- The foreign keys of a `(user_id, book_id)` row resolve. -/
def Db.refsExist (db : Db) (user_id book_id : Int) : Bool :=
  db.users.any (fun u => decide (u.id = user_id)) &&
  db.books.any (fun b => decide (b.id = book_id))

/-! ### Reading progress (lines 372-399) -/

/-- JSON body of `POST /api/progress` as sent: `currentPage` and `totalPages`
are the integer literals of the request text, which `express.json()` parses
into numbers (`jsonInteger`); `bookId` is the number the handler holds, the
id of a `books` row when the statement succeeds; an absent or `null` member
is `none`. -/
structure ProgressBody where
  bookId : Option Int
  currentPage : Option Int
  totalPages : Option Int
deriving DecidableEq, Repr

/-- Number of halvings that bring `a` below `2^53`: the binary exponent of
the spacing of the doubles around `a`. -/
def excessBits : Nat → Nat → Nat
  | 0, _ => 0
  | fuel + 1, a => if a < 9007199254740992 then 0 else excessBits fuel (a / 2) + 1

/-- The number `JSON.parse` holds for an integer literal `n`: the nearest
IEEE 754 double, ties to the even significand.  Below `2^53` in magnitude
that is `n` itself; from there on the doubles are `2^shift` apart.  (A
literal that rounds to `2^1024` or more parses to `Infinity`, which the
table then holds as a REAL: the function follows the route below that.) -/
def jsonInteger (n : Int) : Int :=
  let a := n.natAbs
  let shift := excessBits a a
  let q := a / 2 ^ shift
  let r := a % 2 ^ shift
  let half := 2 ^ shift / 2
  let q' := if half < r ∨ (r = half ∧ 0 < shift ∧ q % 2 = 1) then q + 1 else q
  if n < 0 then -((q' * 2 ^ shift : Nat) : Int) else ((q' * 2 ^ shift : Nat) : Int)

/-- JavaScript `x || d` for an integer or absent `x`. -/
def orDefault (x : Option Int) (d : Int) : Int :=
  match x with
  | some v => if v ≠ 0 then v else d
  | none => d

/-- The statement `INSERT OR REPLACE INTO reading_progress (user_id, book_id,
current_page, total_pages, last_accessed) VALUES (?, ?, ?, ?,
CURRENT_TIMESTAMP)`: rows clashing on `UNIQUE(user_id, book_id)` are deleted,
then the new row is inserted.  `none` when the statement throws (`book_id` is
NOT NULL; a foreign key does not resolve). -/
def insertOrReplaceProgress (db : Db) (user_id : Int) (book_id : Option Int)
    (current_page total_pages : Int) (now : Nat) : Option Db :=
  match book_id with
  | none => none
  | some book_id =>
    if db.foreign_keys = true ∧ db.refsExist user_id book_id = false then none
    else
      let kept := db.reading_progress.filter
        (fun r => !decide (r.user_id = user_id ∧ r.book_id = book_id))
      let row : ProgressRow :=
        { id := db.reading_progress_seq + 1, user_id := user_id, book_id := book_id,
          current_page := current_page, total_pages := total_pages, last_accessed := now }
      some { db with reading_progress := kept ++ [row],
                     reading_progress_seq := db.reading_progress_seq + 1 }

/-- Body `{ success: true }`. -/
structure SuccessBody where
  success : Bool
deriving DecidableEq, Repr

/-- Route `POST /api/progress`, lines 373-387: `req.body` holds the parsed
numbers, and the row gets `currentPage || 1` and `totalPages || 0`. -/
def postProgress (db : Db) (session : Option Int) (body : ProgressBody) (now : Nat) :
    Db × Response SuccessBody :=
  match requireAuth session with
  | none => (db, Response.error 401 "Authentication required")
  | some userId =>
    match insertOrReplaceProgress db userId body.bookId
        (orDefault (body.currentPage.map jsonInteger) 1)
        (orDefault (body.totalPages.map jsonInteger) 0) now with
    | some db' => (db', Response.json { success := true })
    | none => (db, Response.error 500 "Failed to update progress")

/-- The `progress` member of the `GET /api/progress/:bookId` response: a
whole row, or the two-member default object. -/
structure ProgressJson where
  id : Option Int
  user_id : Option Int
  book_id : Option Int
  current_page : Int
  total_pages : Int
  last_accessed : Option Nat
deriving DecidableEq, Repr

/-- A row as the object `SELECT *` returns. -/
def ProgressRow.toJson (r : ProgressRow) : ProgressJson :=
  { id := some r.id, user_id := some r.user_id, book_id := some r.book_id,
    current_page := r.current_page, total_pages := r.total_pages,
    last_accessed := some r.last_accessed }

/-- The literal `{ current_page: 1, total_pages: 0 }`. -/
def defaultProgress : ProgressJson :=
  { id := none, user_id := none, book_id := none, current_page := 1, total_pages := 0,
    last_accessed := none }

/-- Query `SELECT * FROM reading_progress WHERE user_id = ? AND book_id = ?` with
`.get`: the first matching row. -/
def selectProgress (db : Db) (user_id book_id : Int) : Option ProgressRow :=
  db.reading_progress.find? (fun r => decide (r.user_id = user_id ∧ r.book_id = book_id))

/-- Route `GET /api/progress/:bookId`, lines 389-399. -/
def getProgress (db : Db) (session : Option Int) (bookId : Int) : Response ProgressJson :=
  match requireAuth session with
  | none => Response.error 401 "Authentication required"
  | some userId =>
    match selectProgress db userId bookId with
    | some progress => Response.json progress.toJson
    | none => Response.json defaultProgress

/-- One `POST /api/progress` request. -/
structure ProgressRequest where
  session : Option Int
  body : ProgressBody
  now : Nat
deriving DecidableEq, Repr

/-- The database after a sequence of `POST /api/progress` requests. -/
def postProgressAll (db : Db) (reqs : List ProgressRequest) : Db :=
  reqs.foldl (fun db r => (postProgress db r.session r.body r.now).1) db

/-- Number of `reading_progress` rows of a `(user_id, book_id)` pair. -/
def progressCount (db : Db) (user_id book_id : Int) : Nat :=
  (db.reading_progress.filter
    (fun r => decide (r.user_id = user_id ∧ r.book_id = book_id))).length

/-! ### Favorites (lines 401-420) -/

/-- Query `SELECT id FROM favorites WHERE user_id = ? AND book_id = ?` with `.get`. -/
def selectFavorite (db : Db) (user_id book_id : Int) : Option FavoriteRow :=
  db.favorites.find? (fun r => decide (r.user_id = user_id ∧ r.book_id = book_id))

/-- Statement `DELETE FROM favorites WHERE user_id = ? AND book_id = ?`. -/
def deleteFavorite (db : Db) (user_id book_id : Int) : Db :=
  let kept := db.favorites.filter (fun r => !decide (r.user_id = user_id ∧ r.book_id = book_id))
  { db with favorites := kept }

/-- Statement `INSERT INTO favorites (user_id, book_id) VALUES (?, ?)`; `none` when the
statement throws (the pair is already present; a foreign key does not
resolve). -/
def insertFavorite (db : Db) (user_id book_id : Int) (now : Nat) : Option Db :=
  if db.favorites.any (fun r => decide (r.user_id = user_id ∧ r.book_id = book_id)) = true then
    none
  else if db.foreign_keys = true ∧ db.refsExist user_id book_id = false then none
  else
    let row : FavoriteRow :=
      { id := db.favorites_seq + 1, user_id := user_id, book_id := book_id, created_at := now }
    some { db with favorites := db.favorites ++ [row], favorites_seq := db.favorites_seq + 1 }

/-- Body `{ favorited }`. -/
structure FavoritedBody where
  favorited : Bool
deriving DecidableEq, Repr

/-- Route `POST /api/favorites/:bookId`, lines 402-420. -/
def postFavorite (db : Db) (session : Option Int) (bookId : Int) (now : Nat) :
    Db × Response FavoritedBody :=
  match requireAuth session with
  | none => (db, Response.error 401 "Authentication required")
  | some userId =>
    match selectFavorite db userId bookId with
    | some _ => (deleteFavorite db userId bookId, Response.json { favorited := false })
    | none =>
      match insertFavorite db userId bookId now with
      | some db' => (db', Response.json { favorited := true })
      | none => (db, Response.error 500 "Failed to toggle favorite")

/-- One `POST /api/favorites/:bookId` request. -/
structure FavoriteRequest where
  session : Option Int
  bookId : Int
  now : Nat
deriving DecidableEq, Repr

/-- The database after a sequence of favorite toggles. -/
def postFavoriteAll (db : Db) (reqs : List FavoriteRequest) : Db :=
  reqs.foldl (fun db r => (postFavorite db r.session r.bookId r.now).1) db

/-- Number of `favorites` rows of a `(user_id, book_id)` pair. -/
def favoriteCount (db : Db) (user_id book_id : Int) : Nat :=
  (db.favorites.filter (fun r => decide (r.user_id = user_id ∧ r.book_id = book_id))).length

/-- The pair is favorited: a `favorites` row for it exists. -/
def isFavorite (db : Db) (user_id book_id : Int) : Bool :=
  db.favorites.any (fun r => decide (r.user_id = user_id ∧ r.book_id = book_id))

/-! ### Accounts (lines 155-216) -/

/-- The `bcrypt` module: `hash password salt` is the result of
`bcrypt.hash(password, 10)` when `salt` is the salt drawn for the call, and
`compare password hash` the result of `bcrypt.compare`. -/
structure Bcrypt where
  hash : String → Nat → String
  compare : String → String → Bool

/-- The session members the routes write. -/
structure Session where
  userId : Option Int
  username : Option String
deriving DecidableEq, Repr

/-- JavaScript truthiness of a string member of a JSON body; an absent
member is `none`. -/
def truthy (x : Option String) : Bool :=
  match x with
  | some s => decide (s ≠ "")
  | none => false

/-- Number of UTF-16 code units of a character. -/
def utf16Units (c : Char) : Nat :=
  if c.toNat ≥ 65536 then 2 else 1

/-- JavaScript `s.length`: the number of UTF-16 code units. -/
def jsLength (s : String) : Nat :=
  (s.toList.map utf16Units).sum

/-- JSON body of `POST /api/auth/register`. -/
structure RegisterBody where
  username : Option String
  email : Option String
  password : Option String
deriving DecidableEq, Repr

/-- JSON body of `POST /api/auth/login`. -/
structure LoginBody where
  email : Option String
  password : Option String
deriving DecidableEq, Repr

/-- The `user` member of a successful auth response. -/
structure AuthUser where
  id : Int
  username : String
  email : String
deriving DecidableEq, Repr

/-- Body `{ success: true, user }`. -/
structure AuthBody where
  success : Bool
  user : AuthUser
deriving DecidableEq, Repr

/-- Query `SELECT id FROM users WHERE email = ? OR username = ?` with `.get`. -/
def selectUserByEmailOrUsername (db : Db) (email username : String) : Option UserRow :=
  db.users.find? (fun u => decide (u.email = email ∨ u.username = username))

/-- Query `SELECT * FROM users WHERE email = ?` with `.get`. -/
def selectUserByEmail (db : Db) (email : String) : Option UserRow :=
  db.users.find? (fun u => decide (u.email = email))

/-- Statement `INSERT INTO users (username, email, password_hash) VALUES (?,
?, ?)`; `none` when it throws (`username` and `email` are UNIQUE). -/
def insertUser (db : Db) (username email password_hash : String) (now : Nat) : Option Db :=
  if db.users.any (fun u => decide (u.username = username ∨ u.email = email)) = true then none
  else
    let row : UserRow :=
      { id := db.users_seq + 1, username := username, email := email,
        password_hash := password_hash, created_at := now }
    some { db with users := db.users ++ [row], users_seq := db.users_seq + 1 }

/-- Route `POST /api/auth/register`, lines 156-188. -/
def register (bcrypt : Bcrypt) (db : Db) (session : Session) (body : RegisterBody)
    (salt now : Nat) : Db × Session × Response AuthBody :=
  match body.username, body.email, body.password with
  | some username, some email, some password =>
    if truthy body.username = false ∨ truthy body.email = false ∨
        truthy body.password = false then
      (db, session, Response.error 400 "All fields are required")
    else if jsLength password < 6 then
      (db, session, Response.error 400 "Password must be at least 6 characters")
    else
      match selectUserByEmailOrUsername db email username with
      | some _ => (db, session, Response.error 400 "User already exists")
      | none =>
        let passwordHash := bcrypt.hash password salt
        match insertUser db username email passwordHash now with
        | none => (db, session, Response.error 500 "Registration failed")
        | some db' =>
          let lastInsertRowid := db.users_seq + 1
          let session : Session := { userId := some lastInsertRowid, username := some username }
          (db', session,
            Response.json { success := true, user := ⟨lastInsertRowid, username, email⟩ })
  | _, _, _ => (db, session, Response.error 400 "All fields are required")

/-- Route `POST /api/auth/login`, lines 190-216. -/
def login (bcrypt : Bcrypt) (db : Db) (session : Session) (body : LoginBody) :
    Session × Response AuthBody :=
  match body.email, body.password with
  | some email, some password =>
    if truthy body.email = false ∨ truthy body.password = false then
      (session, Response.error 400 "Email and password are required")
    else
      match selectUserByEmail db email with
      | none => (session, Response.error 401 "Invalid credentials")
      | some user =>
        if bcrypt.compare password user.password_hash = false then
          (session, Response.error 401 "Invalid credentials")
        else
          let session : Session := { userId := some user.id, username := some user.username }
          (session,
            Response.json { success := true, user := ⟨user.id, user.username, user.email⟩ })
  | _, _ => (session, Response.error 400 "Email and password are required")

/-- One `POST /api/auth/register` request. -/
structure RegisterRequest where
  session : Session
  body : RegisterBody
  salt : Nat
  now : Nat
deriving DecidableEq, Repr

/-- The database after a sequence of registration requests. -/
def registerAll (bcrypt : Bcrypt) (db : Db) (reqs : List RegisterRequest) : Db :=
  reqs.foldl (fun db r => (register bcrypt db r.session r.body r.salt r.now).1) db

/-- No two user rows share a username and no two share an email. -/
def usersUnique (db : Db) : Prop :=
  (db.users.map UserRow.username).Nodup ∧ (db.users.map UserRow.email).Nodup

/-! ### Deleting a book (lines 337-370) -/

/-- Test whether the characters `pat` start the list `s`. -/
def startsWith : List Char → List Char → Bool
  | [], _ => true
  | _ :: _, [] => false
  | p :: ps, c :: cs => p == c && startsWith ps cs

/-- Test whether the characters `pat` occur in `s` as a contiguous run. -/
def includesChars (pat : List Char) : List Char → Bool
  | [] => pat.isEmpty
  | c :: cs => startsWith pat (c :: cs) || includesChars pat cs

/-- JavaScript `s.includes(pat)`. -/
def includes (s pat : String) : Bool :=
  includesChars pat.toList s.toList

/-- The calls `if (fs.existsSync(p)) fs.unlinkSync(p)` on the set of stored
files, each named by its path below `public`. -/
def unlinkIfExists (files : List String) (path : String) : List String :=
  if path ∈ files then files.filter (fun f => decide (f ≠ path)) else files

/-- A `reading_progress` or `favorites` row refers to the book. -/
def Db.bookReferenced (db : Db) (book_id : Int) : Bool :=
  db.reading_progress.any (fun r => decide (r.book_id = book_id)) ||
  db.favorites.any (fun r => decide (r.book_id = book_id))

/-- Statement `DELETE FROM books WHERE id = ?`; `none` when it throws (a
foreign key of another table refers to the row and foreign keys are
enforced). -/
def deleteBookRow (db : Db) (id : Int) : Option Db :=
  if db.foreign_keys = true ∧ db.bookReferenced id = true then none
  else some { db with books := db.books.filter (fun b => decide (b.id ≠ id)) }

/-- Query `SELECT * FROM books WHERE id = ?` with `.get`. -/
def selectBook (db : Db) (id : Int) : Option BookRow :=
  db.books.find? (fun b => decide (b.id = id))

/-- Route `DELETE /api/books/:id`, lines 337-370, on the database and the set
of stored files. -/
def deleteBook (db : Db) (files : List String) (session : Option Int) (id : Int) :
    Db × List String × Response SuccessBody :=
  match requireAuth session with
  | none => (db, files, Response.error 401 "Authentication required")
  | some userId =>
    match selectBook db id with
    | none => (db, files, Response.error 404 "Book not found")
    | some book =>
      if book.uploaded_by ≠ some userId then
        (db, files, Response.error 403 "Not authorized to delete this book")
      else
        let files := unlinkIfExists files book.file_path
        let files :=
          if book.cover_path ≠ "" ∧ includes book.cover_path "default-cover" = false then
            unlinkIfExists files book.cover_path
          else files
        match deleteBookRow db id with
        | some db' => (db', files, Response.json { success := true })
        | none => (db, files, Response.error 500 "Failed to delete book")

/-- A row of `books` with the given id exists. -/
def bookExists (db : Db) (id : Int) : Bool :=
  db.books.any (fun b => decide (b.id = id))

/-! ### Uploading a book (lines 74-101 and 296-335) -/

/-- A file part of the multipart request, as the multer callbacks see it. -/
structure IncomingFile where
  originalname : String
  mimetype : String
deriving DecidableEq, Repr

/-- A file as multer stored it: an element of `req.files[field]`. -/
structure StoredFile where
  destination : String
  filename : String
  originalname : String
  mimetype : String
deriving DecidableEq, Repr

/-- The list `allowedTypes` of `fileFilter`, line 94. -/
def allowedTypes : List String :=
  ["application/pdf", "image/jpeg", "image/png", "image/gif", "image/webp"]

/-- The `fileFilter` of the multer instance, lines 93-100: whether the file
is accepted. -/
def fileFilter (file : IncomingFile) : Bool :=
  decide (file.mimetype ∈ allowedTypes)

/-- The `destination` callback of the disk storage, lines 76-82. -/
def destination (file : IncomingFile) : String :=
  if file.mimetype = "application/pdf" then "public/uploads/books/"
  else "public/uploads/covers/"

/-- The `filename` callback of the disk storage, lines 83-87; `extname` is
`path.extname` and `uuid` the value `uuidv4()` returns for this file. -/
def filename (extname : String → String) (uuid : String) (file : IncomingFile) : String :=
  uuid ++ extname file.originalname

/-- The disk storage writing one accepted file. -/
def storeFile (extname : String → String) (uuid : String) (file : IncomingFile) : StoredFile :=
  { destination := destination file, filename := filename extname uuid file,
    originalname := file.originalname, mimetype := file.mimetype }

/-- The path below `public` at which a stored file lies: its destination
without the leading `public`, followed by its file name. -/
def StoredFile.publicPath (f : StoredFile) : String :=
  String.mk (f.destination.toList.drop 6) ++ f.filename

/-- A `POST /api/books` request: whether its content type is
`multipart/form-data` (the upload form), the text fields of `req.body` (an
absent field is `none`) and the file parts named `book` and `cover`. -/
structure BookUpload where
  multipart : Bool
  title : Option String
  author : Option String
  description : Option String
  book : Option IncomingFile
  cover : Option IncomingFile
deriving DecidableEq, Repr

/-- The `book` member of the upload response. -/
structure UploadedBook where
  id : Int
  title : String
  author : String
  file_path : String
  cover_path : String
deriving DecidableEq, Repr

/-- Body `{ success: true, book }`. -/
structure UploadBody where
  success : Bool
  book : UploadedBook
deriving DecidableEq, Repr

/-- Statement `INSERT INTO books (title, author, description, file_path,
cover_path, uploaded_by) VALUES (?, ?, ?, ?, ?, ?)`; `none` when it throws
(`uploaded_by` refers to no user and foreign keys are enforced). -/
def insertBook (db : Db) (title author description file_path cover_path : String)
    (uploaded_by : Int) (now : Nat) : Option Db :=
  if db.foreign_keys = true ∧ db.users.any (fun u => decide (u.id = uploaded_by)) = false then
    none
  else
    let row : BookRow :=
      { id := db.books_seq + 1, title := title, author := author, description := description,
        file_path := file_path, cover_path := cover_path, uploaded_by := some uploaded_by,
        created_at := now }
    some { db with books := db.books ++ [row], books_seq := db.books_seq + 1 }

/-- Route `POST /api/books`, lines 296-335, with the multer middleware in
front of it, on the database and the set of stored files (paths below
`public`).  A file part the filter rejects ends the request with the error
of the filter; an accepted part is on disk before the handler runs.  Multer
passes a request that is not multipart on untouched: `req.files` is then
undefined, and `req.files['book']` on line 303 throws once `title` and
`author` are truthy. -/
def postBook (extname : String → String) (db : Db) (files : List String)
    (session : Option Int) (req : BookUpload) (uuidBook uuidCover : String) (now : Nat) :
    Db × List String × Response UploadBody :=
  match requireAuth session with
  | none => (db, files, Response.error 401 "Authentication required")
  | some userId =>
    if req.multipart = false then
      if truthy req.title = false ∨ truthy req.author = false then
        (db, files, Response.error 400 "Title, author, and book file are required")
      else (db, files, Response.error 500 "Failed to upload book")
    else if req.book.any (fun f => !fileFilter f) = true ∨
        req.cover.any (fun f => !fileFilter f) = true then
      (db, files, Response.error 500 "Invalid file type")
    else
      let bookFiles := req.book.map (storeFile extname uuidBook)
      let coverFiles := req.cover.map (storeFile extname uuidCover)
      let files := files ++ (bookFiles.toList ++ coverFiles.toList).map StoredFile.publicPath
      match req.title, req.author, bookFiles with
      | some title, some author, some bookFile =>
        if truthy req.title = false ∨ truthy req.author = false then
          (db, files, Response.error 400 "Title, author, and book file are required")
        else
          let coverPath :=
            match coverFiles with
            | some coverFile => "/uploads/covers/" ++ coverFile.filename
            | none => "/lib/default-cover.svg"
          let description :=
            match req.description with
            | some d => d
            | none => ""
          let file_path := "/uploads/books/" ++ bookFile.filename
          match insertBook db title author description file_path coverPath userId now with
          | none => (db, files, Response.error 500 "Failed to upload book")
          | some db' =>
            (db', files,
              Response.json { success := true,
                              book := ⟨db.books_seq + 1, title, author, file_path, coverPath⟩ })
      | _, _, _ =>
        (db, files, Response.error 400 "Title, author, and book file are required")

/-! ## Reader: derived notions -/

/-- The events of page flipping: the two flip requests and the timer
callbacks. -/
def Event.isFlip : Event → Prop
  | Event.flipNext => True
  | Event.flipPrev => True
  | Event.timer _ => True
  | _ => False

instance Event.decidableIsFlip (e : Event) : Decidable e.isFlip := by
  cases e <;> unfold Event.isFlip <;> infer_instance

/-- The value `loadBook` reads as `progressData.progress.current_page` from
the response of `GET /api/progress/:bookId`; an error body has no `progress`
member and reading through it throws. -/
def progressOfResponse : Response ProgressJson → Option Int
  | Response.json progress => some progress.current_page
  | Response.error _ _ => none

/-- A `flipNext` call followed by the firing of the timer it queued (the
last pending one); when the call queued none, nothing fires. -/
def completeFlipNext (pdfDoc : Int → Bool) (s : Reader) : Reader :=
  fireTimer pdfDoc s.timers.length (flipNext s)

/-- The reader after `k` successive `flipNext` calls, each left to complete. -/
def flipNextTimes (pdfDoc : Int → Bool) : Nat → Reader → Reader
  | 0, s => s
  | k + 1, s => flipNextTimes pdfDoc k (completeFlipNext pdfDoc s)

/-- A `flipPrev` call followed by the firing of the timer it queued and of
the commit timer that one queues (each the last pending one); when the call
queued none, nothing fires. -/
def completeFlipPrev (pdfDoc : Int → Bool) (s : Reader) : Reader :=
  fireTimer pdfDoc s.timers.length (fireTimer pdfDoc s.timers.length (flipPrev pdfDoc s))

/-! ## Concrete inputs -/

/-- A loaded reader of book `7` at the given page, page count and `#book`
children, with no flip in flight and nothing pending. -/
def readerAt (currentPage totalPages : Int) (book : List PageElement) : Reader :=
  { initialReader "7" with currentPage := currentPage, totalPages := totalPages,
                           pageInput := currentPage, pageSlider := currentPage,
                           pageInputMax := totalPages, pageSliderMax := totalPages,
                           totalPagesSpan := totalPages, book := book, loadingHidden := true }

/-- A document all of whose pages render. -/
def allPagesRender : Int → Bool := fun _ => true

/-- A document whose page `2` fails to render. -/
def pageTwoFails : Int → Bool := fun n => decide (n ≠ 2)

/-- A document whose page `10` fails to render. -/
def pageTenFails : Int → Bool := fun n => decide (n ≠ 10)

/-- A document whose page `4` fails to render. -/
def pageFourFails : Int → Bool := fun n => decide (n ≠ 4)

/-- A book record as `GET /api/books/:id` returns it. -/
def sampleBook : BookData :=
  { title := "Walden", author := "Thoreau", file_path := "/uploads/books/w.pdf",
    is_favorite := 0 }

/-- A user row with the given id. -/
def sampleUser (id : Int) : UserRow :=
  { id := id, username := "reader", email := "reader@example.com", password_hash := "$2b$10$h",
    created_at := 0 }

/-- A book row with the given id, uploaded by user 5. -/
def sampleBookRow (id : Int) : BookRow :=
  { id := id, title := "Walden", author := "Thoreau", description := "",
    file_path := "/uploads/books/w.pdf", cover_path := "/lib/default-cover.svg",
    uploaded_by := some 5, created_at := 0 }

/-- A database with user 5, book 7, no progress and no favorites, foreign
keys enforced. -/
def sampleDb : Db :=
  { users := [sampleUser 5], books := [sampleBookRow 7], reading_progress := [],
    favorites := [], users_seq := 5, books_seq := 7, reading_progress_seq := 0,
    favorites_seq := 0, foreign_keys := true }

/-- A `bcrypt` stand-in: the hash is a tag followed by the password. -/
def sampleBcrypt : Bcrypt :=
  { hash := fun password _ => "$2b$10$" ++ password,
    compare := fun password hash => decide (hash = "$2b$10$" ++ password) }

/-- The files stored for the book of `sampleBookRow` and a cover of another
book. -/
def sampleFiles : List String :=
  ["/uploads/books/w.pdf", "/uploads/covers/c.png"]

/-- The database `sampleDb` after user 5 opened book 7 in the reader: one
`reading_progress` row for `(5, 7)`. -/
def sampleDbWithProgress : Db :=
  (postProgress sampleDb (some 5) ⟨some 7, some 3, some 10⟩ 100).1

/-- The database `sampleDbWithProgress` with a second book, 8. -/
def sampleDbTwoBooks : Db :=
  { sampleDbWithProgress with books := [sampleBookRow 7, sampleBookRow 8] }

/-- A stand-in for `path.extname` on names ending in `.png`. -/
def pngExtname : String → String := fun _ => ".png"

/-- An upload whose `book` part is a PNG image chosen through the file
picker, without a cover. -/
def pngBookUpload : BookUpload :=
  { multipart := true, title := some "Walden", author := some "Thoreau",
    description := some "", book := some ⟨"scan.png", "image/png"⟩, cover := none }

/-- The foreign keys of every `favorites` row resolve when the database
enforces them. -/
def Db.favoritesResolve (db : Db) : Prop :=
  db.foreign_keys = true → ∀ r ∈ db.favorites, db.refsExist r.user_id r.book_id = true

/-! ## Reader: field lemmas -/

theorem renderPages_eq (pdfDoc : Int → Bool) (s : Reader) :
    renderPages pdfDoc s =
      { s with book := spreadOf pdfDoc s.currentPage s.totalPages,
               prevDisabled := decide (s.currentPage ≤ 1),
               nextDisabled := decide (s.currentPage ≥ s.totalPages) } := by
  unfold renderPages spreadOf renderPage updateNavigation createPageElement
  by_cases h1 : pdfDoc s.currentPage = true <;> by_cases h2 : s.currentPage < s.totalPages <;>
    by_cases h3 : pdfDoc (s.currentPage + 1) = true <;> simp [h1, h2, h3]

theorem goToPage_eq (pdfDoc : Int → Bool) (s : Reader) (n : Int) :
    goToPage pdfDoc s n =
      { s with currentPage := max 1 (min n s.totalPages),
               pageInput := max 1 (min n s.totalPages),
               pageSlider := max 1 (min n s.totalPages),
               book := spreadOf pdfDoc (max 1 (min n s.totalPages)) s.totalPages,
               prevDisabled := decide (max 1 (min n s.totalPages) ≤ 1),
               nextDisabled := decide (max 1 (min n s.totalPages) ≥ s.totalPages),
               saved := s.saved ++ [{ bookId := s.bookId,
                                      currentPage := max 1 (min n s.totalPages),
                                      totalPages := s.totalPages }] } := by
  simp only [goToPage, renderPages_eq, updateNavigation, saveProgress]


theorem flipNext_currentPage (s : Reader) : (flipNext s).currentPage = s.currentPage := by
  unfold flipNext; simp only []; split_ifs <;> rfl

theorem flipNext_totalPages (s : Reader) : (flipNext s).totalPages = s.totalPages := by
  unfold flipNext; simp only []; split_ifs <;> rfl

theorem flipPrev_currentPage (pdfDoc : Int → Bool) (s : Reader) :
    (flipPrev pdfDoc s).currentPage = s.currentPage := by
  unfold flipPrev renderPage; simp only []
  split_ifs <;> rfl

theorem flipPrev_totalPages (pdfDoc : Int → Bool) (s : Reader) :
    (flipPrev pdfDoc s).totalPages = s.totalPages := by
  unfold flipPrev renderPage; simp only []
  split_ifs <;> rfl

theorem goToPage_range (pdfDoc : Int → Bool) (s : Reader) (n : Int) (h : 1 ≤ s.totalPages) :
    (goToPage pdfDoc s n).totalPages = s.totalPages ∧
    1 ≤ (goToPage pdfDoc s n).currentPage ∧
    (goToPage pdfDoc s n).currentPage ≤ s.totalPages := by
  rw [goToPage_eq]
  simp only [true_and]
  omega

theorem runTimer_range (pdfDoc : Int → Bool) (s : Reader) (t : Timer)
    (h1 : 1 ≤ s.currentPage) (h2 : s.currentPage ≤ s.totalPages) :
    (runTimer pdfDoc s t).totalPages = s.totalPages ∧
    1 ≤ (runTimer pdfDoc s t).currentPage ∧
    (runTimer pdfDoc s t).currentPage ≤ s.totalPages := by
  cases t with
  | flipNextCommit =>
      simp only [runTimer, goToPage_eq, renderPages_eq]
      split_ifs <;> simp only [true_and] <;> omega
  | flipPrevAnimate a b => simp only [runTimer, true_and]; omega
  | flipPrevCommit =>
      simp only [runTimer, goToPage_eq, renderPages_eq, true_and]
      omega
  | toastHide => simp only [runTimer, true_and]; omega

theorem fireTimer_range (pdfDoc : Int → Bool) (s : Reader) (i : Nat)
    (h1 : 1 ≤ s.currentPage) (h2 : s.currentPage ≤ s.totalPages) :
    (fireTimer pdfDoc i s).totalPages = s.totalPages ∧
    1 ≤ (fireTimer pdfDoc i s).currentPage ∧
    (fireTimer pdfDoc i s).currentPage ≤ s.totalPages := by
  unfold fireTimer
  cases s.timers.get? i with
  | none => exact ⟨rfl, h1, h2⟩
  | some t => exact runTimer_range pdfDoc { s with timers := s.timers.eraseIdx i } t h1 h2

theorem pageInputChange_range (pdfDoc : Int → Bool) (s : Reader) (page : Option Int)
    (h1 : 1 ≤ s.currentPage) (h2 : s.currentPage ≤ s.totalPages) :
    (pageInputChange pdfDoc s page).totalPages = s.totalPages ∧
    1 ≤ (pageInputChange pdfDoc s page).currentPage ∧
    (pageInputChange pdfDoc s page).currentPage ≤ s.totalPages := by
  cases page with
  | none => exact ⟨rfl, h1, h2⟩
  | some v =>
      simp only [pageInputChange]
      split_ifs with hv
      · exact goToPage_range pdfDoc s v (by omega)
      · exact ⟨rfl, h1, h2⟩

theorem pageSliderInput_range (pdfDoc : Int → Bool) (s : Reader) (page : Int)
    (h1 : 1 ≤ s.currentPage) (h2 : s.currentPage ≤ s.totalPages)
    (hp1 : 1 ≤ page) (hp2 : page ≤ s.totalPages) :
    (pageSliderInput pdfDoc s page).totalPages = s.totalPages ∧
    1 ≤ (pageSliderInput pdfDoc s page).currentPage ∧
    (pageSliderInput pdfDoc s page).currentPage ≤ s.totalPages := by
  simp only [pageSliderInput, renderPages_eq, updateNavigation, saveProgress]
  split_ifs
  · exact ⟨rfl, hp1, hp2⟩
  · exact ⟨rfl, h1, h2⟩

theorem step_range (pdfDoc : Int → Bool) (s : Reader) (e : Event)
    (h1 : 1 ≤ s.currentPage) (h2 : s.currentPage ≤ s.totalPages)
    (he : e.sliderWithin s.totalPages) :
    (step pdfDoc s e).totalPages = s.totalPages ∧
    1 ≤ (step pdfDoc s e).currentPage ∧
    (step pdfDoc s e).currentPage ≤ s.totalPages := by
  cases e with
  | flipNext =>
      rw [show step pdfDoc s Event.flipNext = flipNext s from rfl, flipNext_currentPage,
        flipNext_totalPages]
      exact ⟨rfl, h1, h2⟩
  | flipPrev =>
      rw [show step pdfDoc s Event.flipPrev = flipPrev pdfDoc s from rfl, flipPrev_currentPage,
        flipPrev_totalPages]
      exact ⟨rfl, h1, h2⟩
  | goToPage n => exact goToPage_range pdfDoc s n (by omega)
  | pageInputChange page => exact pageInputChange_range pdfDoc s page h1 h2
  | pageSliderInput page => exact pageSliderInput_range pdfDoc s page h1 h2 he.1 he.2
  | timer i => exact fireTimer_range pdfDoc s i h1 h2

theorem run_range (pdfDoc : Int → Bool) (evs : List Event) (s : Reader)
    (h1 : 1 ≤ s.currentPage) (h2 : s.currentPage ≤ s.totalPages)
    (he : ∀ e ∈ evs, e.sliderWithin s.totalPages) :
    (run pdfDoc s evs).totalPages = s.totalPages ∧
    1 ≤ (run pdfDoc s evs).currentPage ∧
    (run pdfDoc s evs).currentPage ≤ s.totalPages := by
  induction evs generalizing s with
  | nil => exact ⟨rfl, h1, h2⟩
  | cons e evs ih =>
      have hs := step_range pdfDoc s e h1 h2 (he e (List.mem_cons_self e evs))
      have hr := ih (step pdfDoc s e) hs.2.1 (by rw [hs.1]; exact hs.2.2)
        (by rw [hs.1]; exact fun e' he' => he e' (List.mem_cons_of_mem e he'))
      simp only [run, List.foldl_cons] at hr ⊢
      rw [hs.1] at hr
      exact hr

theorem loadBook_success (pdfDoc : Int → Bool) (s : Reader) (b : BookData) (p n : Int) :
    (loadBook pdfDoc s (some b) (some p) (some n)).totalPages = n ∧
    (loadBook pdfDoc s (some b) (some p) (some n)).currentPage =
      max 1 (min (if p ≠ 0 then p else 1) n) := by
  simp only [loadBook, goToPage_eq, renderPages_eq, showLoading, saveProgress, and_self]

theorem fireTimer_last (pdfDoc : Int → Bool) (s : Reader) (l : List Timer) (t : Timer)
    (h : s.timers = l ++ [t]) :
    fireTimer pdfDoc l.length s = runTimer pdfDoc { s with timers := l } t := by
  unfold fireTimer
  rw [h]
  simp [List.getElem?_append_right, List.eraseIdx_append_of_length_le]

theorem flipNext_start (s : Reader) (hf : s.isFlipping = false)
    (hlt : s.currentPage < s.totalPages)
    (hl : (querySelector s s.currentPage).isSome = true)
    (hr : (querySelector s (s.currentPage + 1)).isSome = true) :
    flipNext s = { s with isFlipping := true, timers := s.timers ++ [Timer.flipNextCommit] } := by
  unfold querySelector at hl hr
  unfold flipNext querySelector
  simp only [hf, hl, hr]
  rw [if_neg (by simp; omega)]
  simp

theorem flipNext_locked (s : Reader) (hf : s.isFlipping = true) : flipNext s = s := by
  unfold flipNext
  simp [hf]

theorem flipPrev_start (pdfDoc : Int → Bool) (s : Reader) (hf : s.isFlipping = false)
    (hgt : 1 < s.currentPage) (hl : (querySelector s s.currentPage).isSome = true) :
    ∃ bk, flipPrev pdfDoc s =
      { s with isFlipping := true, book := bk,
               timers := s.timers ++
                 [Timer.flipPrevAnimate (s.currentPage - 2) (s.currentPage - 1)] } := by
  unfold querySelector at hl
  unfold flipPrev querySelector renderPage
  simp only [hf, hl]
  rw [if_neg (by simp; omega)]
  simp only [if_true]
  split_ifs <;> exact ⟨_, rfl⟩

/-! ## Reader: the claims -/

/-- C1. For every integer `n` and every `totalPages ≥ 1`, `goToPage(n)` leaves
`currentPage = max(1, min(n, totalPages))`, which lies in `[1, totalPages]`,
and leaves `totalPages` and `isFlipping` as they were. -/
theorem goToPage_clamps (pdfDoc : Int → Bool) (s : Reader) (n : Int)
    (h : 1 ≤ s.totalPages) :
    (goToPage pdfDoc s n).currentPage = max 1 (min n s.totalPages) ∧
    1 ≤ (goToPage pdfDoc s n).currentPage ∧
    (goToPage pdfDoc s n).currentPage ≤ s.totalPages ∧
    (goToPage pdfDoc s n).totalPages = s.totalPages ∧
    (goToPage pdfDoc s n).isFlipping = s.isFlipping := by
  have hr := goToPage_range pdfDoc s n h
  refine ⟨?_, hr.2.1, hr.2.2, hr.1, ?_⟩ <;> rw [goToPage_eq]

theorem goToPage_clamps_witness :
    (1 : Int) ≤ (readerAt 3 10 []).totalPages ∧
    (goToPage allPagesRender (readerAt 3 10 []) 42).currentPage = 10 ∧
    (goToPage allPagesRender (readerAt 3 10 []) (-5)).currentPage = 1 :=
  ⟨by decide,
   (goToPage_clamps allPagesRender (readerAt 3 10 []) 42 (by decide)).1,
   (goToPage_clamps allPagesRender (readerAt 3 10 []) (-5) (by decide)).1⟩

/-- C2. When `currentPage ≥ totalPages`, `flipNext` returns the reader state
it was given, and when `currentPage ≤ 1` so does `flipPrev`: `currentPage`,
`totalPages`, `isFlipping`, the pending timers and the list of progress
writes are all unchanged. -/
theorem flip_boundary_noop (pdfDoc : Int → Bool) (s : Reader) :
    (s.currentPage ≥ s.totalPages → flipNext s = s) ∧
    (s.currentPage ≤ 1 → flipPrev pdfDoc s = s) := by
  constructor
  · intro h
    unfold flipNext
    rw [if_pos (Or.inr h)]
  · intro h
    unfold flipPrev
    rw [if_pos (Or.inr h)]

theorem flip_boundary_noop_witness :
    ((readerAt 10 10 [⟨10, NavZone.prev⟩]).currentPage ≥
        (readerAt 10 10 [⟨10, NavZone.prev⟩]).totalPages ∧
      flipNext (readerAt 10 10 [⟨10, NavZone.prev⟩]) = readerAt 10 10 [⟨10, NavZone.prev⟩]) ∧
    ((readerAt 1 10 [⟨1, NavZone.prev⟩, ⟨2, NavZone.next⟩]).currentPage ≤ 1 ∧
      flipPrev allPagesRender (readerAt 1 10 [⟨1, NavZone.prev⟩, ⟨2, NavZone.next⟩]) =
        readerAt 1 10 [⟨1, NavZone.prev⟩, ⟨2, NavZone.next⟩]) :=
  ⟨⟨by decide,
    (flip_boundary_noop allPagesRender (readerAt 10 10 [⟨10, NavZone.prev⟩])).1 (by decide)⟩,
   ⟨by decide,
    (flip_boundary_noop allPagesRender
      (readerAt 1 10 [⟨1, NavZone.prev⟩, ⟨2, NavZone.next⟩])).2 (by decide)⟩⟩

/-- C3, as the code has it. For every reader state with `isFlipping` false,
`1 ≤ currentPage < totalPages` and both pages of the current spread present
in `#book`, the first `flipNext` sets the lock and queues one commit timer, a
second `flipNext` before that timer fires changes nothing (it is dropped, not
queued), and once the timer fires `currentPage = min(currentPage + 2,
totalPages)` of the original page, the lock is released, no timer of the flip
is left and exactly one progress write was issued.  The timer the flip queues
is the last pending one, at index `s.timers.length`. -/
theorem flipNext_twice_advances_once (pdfDoc : Int → Bool) (s : Reader)
    (hf : s.isFlipping = false) (h1 : 1 ≤ s.currentPage)
    (hlt : s.currentPage < s.totalPages)
    (hl : (querySelector s s.currentPage).isSome = true)
    (hr : (querySelector s (s.currentPage + 1)).isSome = true) :
    (flipNext s).isFlipping = true ∧
    (flipNext s).timers = s.timers ++ [Timer.flipNextCommit] ∧
    flipNext (flipNext s) = flipNext s ∧
    (fireTimer pdfDoc s.timers.length (flipNext (flipNext s))).currentPage =
      min (s.currentPage + 2) s.totalPages ∧
    (fireTimer pdfDoc s.timers.length (flipNext (flipNext s))).isFlipping = false ∧
    (fireTimer pdfDoc s.timers.length (flipNext (flipNext s))).timers = s.timers ∧
    (fireTimer pdfDoc s.timers.length (flipNext (flipNext s))).saved =
      s.saved ++ [{ bookId := s.bookId, currentPage := min (s.currentPage + 2) s.totalPages,
                    totalPages := s.totalPages }] := by
  have hs := flipNext_start s hf hlt hl hr
  have hlock : (flipNext s).isFlipping = true := by rw [hs]
  have htm : (flipNext s).timers = s.timers ++ [Timer.flipNextCommit] := by rw [hs]
  have h2 : flipNext (flipNext s) = flipNext s := flipNext_locked _ hlock
  refine ⟨hlock, htm, h2, ?_, ?_, ?_, ?_⟩ <;>
    rw [h2, fireTimer_last pdfDoc (flipNext s) s.timers Timer.flipNextCommit htm, hs] <;>
    simp only [runTimer, goToPage_eq, renderPages_eq] <;>
    split_ifs <;>
    first
    | rfl
    | omega
    | (simp only [ProgressWrite.mk.injEq, List.append_cancel_left_eq, List.cons.injEq,
        and_true, true_and]
       omega)

theorem flipNext_twice_advances_once_witness :
    (fireTimer allPagesRender 0
      (flipNext (flipNext (readerAt 1 4 [⟨1, NavZone.prev⟩, ⟨2, NavZone.next⟩])))).currentPage
      = 3 :=
  (flipNext_twice_advances_once allPagesRender
    (readerAt 1 4 [⟨1, NavZone.prev⟩, ⟨2, NavZone.next⟩])
    (by decide) (by decide) (by decide) (by decide) (by decide)).2.2.2.1

/-- C3 as stated fails. Page 2 did not render, so `#book` holds page 1 only:
`isFlipping` is false and `currentPage = 1 < 4 = totalPages`, yet after two
`flipNext` calls no timer is pending and `currentPage` is still 1, not
`min(1 + 2, 4) = 3`. -/
theorem flipNext_twice_missing_right_page :
    (renderPages pageTwoFails (readerAt 1 4 [])).book = [⟨1, NavZone.prev⟩] ∧
    (readerAt 1 4 [⟨1, NavZone.prev⟩]).isFlipping = false ∧
    (readerAt 1 4 [⟨1, NavZone.prev⟩]).currentPage <
      (readerAt 1 4 [⟨1, NavZone.prev⟩]).totalPages ∧
    (flipNext (flipNext (readerAt 1 4 [⟨1, NavZone.prev⟩]))).timers = [] ∧
    (fireTimer pageTwoFails 0
      (flipNext (flipNext (readerAt 1 4 [⟨1, NavZone.prev⟩])))).currentPage = 1 ∧
    (fireTimer pageTwoFails 0
      (flipNext (flipNext (readerAt 1 4 [⟨1, NavZone.prev⟩])))).currentPage ≠
      min ((readerAt 1 4 [⟨1, NavZone.prev⟩]).currentPage + 2)
        (readerAt 1 4 [⟨1, NavZone.prev⟩]).totalPages := by
  decide

/-- C4, as the code has it. For every reader state with `isFlipping` false
and `1 ≤ currentPage ≤ totalPages`: a `flipNext` below the last page that
finds both pages of the current spread in `#book` ends, once its timer has
fired, with `currentPage = min(currentPage + 2, totalPages)` and `isFlipping`
false; a `flipPrev` above page 1 that finds the current left page in `#book`
ends, once its two timers have fired, with `currentPage = max(1, currentPage
- 2)` and `isFlipping` false; and with `totalPages = 10`, `currentPage = 9`,
pages 9 and 10 displayed and page 10 rendering again, `flipNext` ends at
`currentPage = 10` with page 10 as the only page of the spread.  The timer a
flip queues is the last pending one, at index `s.timers.length`. -/
theorem flip_settles (pdfDoc : Int → Bool) (s : Reader)
    (hf : s.isFlipping = false) (h1 : 1 ≤ s.currentPage)
    (h2 : s.currentPage ≤ s.totalPages) :
    (s.currentPage < s.totalPages →
      (querySelector s s.currentPage).isSome = true →
      (querySelector s (s.currentPage + 1)).isSome = true →
      (fireTimer pdfDoc s.timers.length (flipNext s)).currentPage =
        min (s.currentPage + 2) s.totalPages ∧
      (fireTimer pdfDoc s.timers.length (flipNext s)).isFlipping = false) ∧
    (1 < s.currentPage →
      (querySelector s s.currentPage).isSome = true →
      (fireTimer pdfDoc s.timers.length
        (fireTimer pdfDoc s.timers.length (flipPrev pdfDoc s))).currentPage =
        max 1 (s.currentPage - 2) ∧
      (fireTimer pdfDoc s.timers.length
        (fireTimer pdfDoc s.timers.length (flipPrev pdfDoc s))).isFlipping = false) ∧
    (s.totalPages = 10 → s.currentPage = 9 →
      (querySelector s 9).isSome = true → (querySelector s 10).isSome = true →
      pdfDoc 10 = true →
      (fireTimer pdfDoc s.timers.length (flipNext s)).currentPage = 10 ∧
      (fireTimer pdfDoc s.timers.length (flipNext s)).book = [⟨10, NavZone.prev⟩]) := by
  have next : s.currentPage < s.totalPages →
      (querySelector s s.currentPage).isSome = true →
      (querySelector s (s.currentPage + 1)).isSome = true →
      fireTimer pdfDoc s.timers.length (flipNext s) =
        runTimer pdfDoc { s with isFlipping := true } Timer.flipNextCommit := by
    intro hlt hl hr
    have hs := flipNext_start s hf hlt hl hr
    rw [fireTimer_last pdfDoc (flipNext s) s.timers Timer.flipNextCommit (by rw [hs]), hs]
  refine ⟨?_, ?_, ?_⟩
  · intro hlt hl hr
    rw [next hlt hl hr]
    simp only [runTimer, goToPage_eq, renderPages_eq]
    constructor
    · split_ifs <;> dsimp only <;> omega
    · trivial
  · intro hgt hl
    obtain ⟨bk, hs⟩ := flipPrev_start pdfDoc s hf hgt hl
    rw [fireTimer_last pdfDoc (flipPrev pdfDoc s) s.timers
      (Timer.flipPrevAnimate (s.currentPage - 2) (s.currentPage - 1)) (by rw [hs]), hs]
    simp only [runTimer]
    rw [fireTimer_last pdfDoc _ s.timers Timer.flipPrevCommit rfl]
    simp only [runTimer, goToPage_eq, renderPages_eq]
    constructor
    · omega
    · trivial
  · intro ht hc hl hr hp
    have hlt : s.currentPage < s.totalPages := by omega
    rw [next hlt (by rw [hc]; exact hl) (by rw [hc]; exact hr)]
    simp only [runTimer, goToPage_eq, renderPages_eq, ht, hc]
    simp [spreadOf, hp]

theorem flip_settles_witness :
    (fireTimer allPagesRender 0
      (flipNext (readerAt 9 10 [⟨9, NavZone.prev⟩, ⟨10, NavZone.next⟩]))).currentPage = 10 ∧
    (fireTimer allPagesRender 0
      (flipNext (readerAt 9 10 [⟨9, NavZone.prev⟩, ⟨10, NavZone.next⟩]))).book =
      [⟨10, NavZone.prev⟩] ∧
    (fireTimer allPagesRender 0 (fireTimer allPagesRender 0
      (flipPrev allPagesRender
        (readerAt 9 10 [⟨9, NavZone.prev⟩, ⟨10, NavZone.next⟩])))).currentPage = 7 :=
  ⟨((flip_settles allPagesRender (readerAt 9 10 [⟨9, NavZone.prev⟩, ⟨10, NavZone.next⟩])
      (by decide) (by decide) (by decide)).2.2 rfl rfl (by decide) (by decide) rfl).1,
   ((flip_settles allPagesRender (readerAt 9 10 [⟨9, NavZone.prev⟩, ⟨10, NavZone.next⟩])
      (by decide) (by decide) (by decide)).2.2 rfl rfl (by decide) (by decide) rfl).2,
   ((flip_settles allPagesRender (readerAt 9 10 [⟨9, NavZone.prev⟩, ⟨10, NavZone.next⟩])
      (by decide) (by decide) (by decide)).2.1 (by decide) (by decide)).1⟩

/-- C4 as stated fails. With `totalPages = 10` and `currentPage = 9`, page 10
did not render, so `#book` holds page 9 only. `flipNext` is not a boundary
no-op (`9 < 10`, no flip in flight), sets no timer, and ends with
`currentPage = 9`, not `min(9 + 2, 10) = 10`. -/
theorem flipNext_nine_of_ten_missing_page :
    (renderPages pageTenFails (readerAt 9 10 [])).book = [⟨9, NavZone.prev⟩] ∧
    (readerAt 9 10 [⟨9, NavZone.prev⟩]).isFlipping = false ∧
    (flipNext (readerAt 9 10 [⟨9, NavZone.prev⟩])).timers = [] ∧
    (flipNext (readerAt 9 10 [⟨9, NavZone.prev⟩])).isFlipping = false ∧
    (fireTimer pageTenFails 0 (flipNext (readerAt 9 10 [⟨9, NavZone.prev⟩]))).currentPage = 9 ∧
    (fireTimer pageTenFails 0 (flipNext (readerAt 9 10 [⟨9, NavZone.prev⟩]))).currentPage ≠
      min (9 + 2) 10 := by
  decide

theorem runTimer_pageSliderMax (pdfDoc : Int → Bool) (s : Reader) (t : Timer) :
    (runTimer pdfDoc s t).pageSliderMax = s.pageSliderMax := by
  cases t with
  | flipNextCommit =>
      simp only [runTimer, goToPage_eq, renderPages_eq]
      split_ifs <;> rfl
  | flipPrevAnimate a b => rfl
  | flipPrevCommit => simp only [runTimer, goToPage_eq, renderPages_eq]
  | toastHide => rfl

theorem step_pageSliderMax (pdfDoc : Int → Bool) (s : Reader) (e : Event) :
    (step pdfDoc s e).pageSliderMax = s.pageSliderMax := by
  cases e with
  | flipNext =>
      rw [show step pdfDoc s Event.flipNext = flipNext s from rfl]
      unfold flipNext; simp only []; split_ifs <;> rfl
  | flipPrev =>
      rw [show step pdfDoc s Event.flipPrev = flipPrev pdfDoc s from rfl]
      unfold flipPrev renderPage; simp only []
      split_ifs <;> rfl
  | goToPage n =>
      rw [show step pdfDoc s (Event.goToPage n) = goToPage pdfDoc s n from rfl, goToPage_eq]
  | pageInputChange page =>
      rw [show step pdfDoc s (Event.pageInputChange page) = pageInputChange pdfDoc s page
        from rfl]
      cases page with
      | none => rfl
      | some v =>
          simp only [pageInputChange]
          split_ifs
          · rw [goToPage_eq]
          · rfl
  | pageSliderInput page =>
      rw [show step pdfDoc s (Event.pageSliderInput page) = pageSliderInput pdfDoc s page
        from rfl]
      simp only [pageSliderInput, renderPages_eq, updateNavigation, saveProgress]
      split_ifs <;> rfl
  | timer i =>
      rw [show step pdfDoc s (Event.timer i) = fireTimer pdfDoc i s from rfl]
      unfold fireTimer
      cases s.timers.get? i with
      | none => rfl
      | some t => exact runTimer_pageSliderMax pdfDoc { s with timers := s.timers.eraseIdx i } t

theorem loadBook_pageSliderMax (pdfDoc : Int → Bool) (s : Reader) (b : BookData) (p n : Int) :
    (loadBook pdfDoc s (some b) (some p) (some n)).pageSliderMax = n := by
  simp only [loadBook, goToPage_eq, renderPages_eq, showLoading, saveProgress]

theorem stepOnPage_eq_step (sliderMin : Int) (pdfDoc : Int → Bool) (s : Reader) (e : Event) :
    ∃ e', stepOnPage sliderMin pdfDoc s e = step pdfDoc s e' ∧
      (sliderMin ≤ s.pageSliderMax → 1 ≤ sliderMin → e'.sliderWithin s.pageSliderMax) := by
  cases e with
  | flipNext => exact ⟨Event.flipNext, rfl, fun _ _ => trivial⟩
  | flipPrev => exact ⟨Event.flipPrev, rfl, fun _ _ => trivial⟩
  | goToPage n => exact ⟨Event.goToPage n, rfl, fun _ _ => trivial⟩
  | pageInputChange page => exact ⟨Event.pageInputChange page, rfl, fun _ _ => trivial⟩
  | pageSliderInput raw =>
      refine ⟨Event.pageSliderInput (sliderValue sliderMin s raw), rfl, fun h1 h2 => ?_⟩
      unfold Event.sliderWithin sliderValue
      omega
  | timer i => exact ⟨Event.timer i, rfl, fun _ _ => trivial⟩

theorem runOnPage_range (sliderMin : Int) (pdfDoc : Int → Bool) (evs : List Event) (s : Reader)
    (hmin : 1 ≤ sliderMin) (hmax : sliderMin ≤ s.totalPages)
    (hm : s.pageSliderMax = s.totalPages)
    (h1 : 1 ≤ s.currentPage) (h2 : s.currentPage ≤ s.totalPages) :
    (runOnPage sliderMin pdfDoc s evs).totalPages = s.totalPages ∧
    1 ≤ (runOnPage sliderMin pdfDoc s evs).currentPage ∧
    (runOnPage sliderMin pdfDoc s evs).currentPage ≤ s.totalPages := by
  induction evs generalizing s with
  | nil => exact ⟨rfl, h1, h2⟩
  | cons e evs ih =>
      obtain ⟨e', he', hw⟩ := stepOnPage_eq_step sliderMin pdfDoc s e
      have hs := step_range pdfDoc s e' h1 h2
        (by rw [← hm]; exact hw (by rw [hm]; exact hmax) hmin)
      have hk := step_pageSliderMax pdfDoc s e'
      rw [← he'] at hs hk
      have hr := ih (stepOnPage sliderMin pdfDoc s e) (by rw [hs.1]; exact hmax)
        (by rw [hk, hs.1]; exact hm) hs.2.1 (by rw [hs.1]; exact hs.2.2)
      simp only [runOnPage, List.foldl_cons] at hr ⊢
      rw [hs.1] at hr
      exact hr

/-- C10. The `min` attribute of `#page-slider` is written in `reader.html`,
which is not among the sources, and is the parameter `sliderMin`; `max` is
set to `totalPages` by `loadBook`. For every slider minimum with `1 ≤
sliderMin ≤ totalPages` (for the minimum 1: every `totalPages ≥ 1`), after a
successful `loadBook`, through any sequence of `flipNext`, `flipPrev`,
`goToPage`, page-number-input changes, timer callbacks and slider drags to
any position, `totalPages` stays the page count of the document and
`1 ≤ currentPage ≤ totalPages`. -/
theorem currentPage_in_range (sliderMin : Int) (pdfDoc : Int → Bool) (s0 : Reader)
    (b : BookData) (p n : Int) (evs : List Event) (hmin : 1 ≤ sliderMin) (hn : sliderMin ≤ n) :
    (runOnPage sliderMin pdfDoc (loadBook pdfDoc s0 (some b) (some p) (some n)) evs).totalPages
      = n ∧
    1 ≤ (runOnPage sliderMin pdfDoc
      (loadBook pdfDoc s0 (some b) (some p) (some n)) evs).currentPage ∧
    (runOnPage sliderMin pdfDoc
      (loadBook pdfDoc s0 (some b) (some p) (some n)) evs).currentPage ≤ n := by
  have hl := loadBook_success pdfDoc s0 b p n
  have hk := loadBook_pageSliderMax pdfDoc s0 b p n
  have hr := runOnPage_range sliderMin pdfDoc evs
    (loadBook pdfDoc s0 (some b) (some p) (some n)) hmin (by rw [hl.1]; exact hn)
    (by rw [hk, hl.1]) (by rw [hl.2]; omega) (by rw [hl.1, hl.2]; omega)
  rw [hl.1] at hr
  exact hr

theorem currentPage_in_range_witness :
    (1 : Int) ≤ 1 ∧ (1 : Int) ≤ 5 ∧
    (runOnPage 1 allPagesRender (loadBook allPagesRender (initialReader "7") (some sampleBook)
        (some 9) (some 5))
      [Event.flipPrev, Event.timer 0, Event.pageSliderInput 0, Event.flipNext,
        Event.flipNext, Event.timer 0, Event.pageInputChange (some 0),
        Event.pageSliderInput 42]).currentPage ≤ 5 :=
  ⟨by decide, by decide,
   (currentPage_in_range 1 allPagesRender (initialReader "7") sampleBook 9 5
      [Event.flipPrev, Event.timer 0, Event.pageSliderInput 0, Event.flipNext,
        Event.flipNext, Event.timer 0, Event.pageInputChange (some 0),
        Event.pageSliderInput 42]
      (by decide) (by decide)).2.2⟩

/-- The lower bound on the slider minimum is needed: with the minimum 0 (the
one a range control has when its markup gives none) a drag to the left end
of the slider of a five-page document leaves `currentPage = 0`, while with
the minimum 1 the same drag leaves `currentPage = 1`. -/
theorem sliderDrag_left_end :
    (runOnPage 0 allPagesRender
      (loadBook allPagesRender (initialReader "7") (some sampleBook) (some 3) (some 5))
      [Event.pageSliderInput 0]).currentPage = 0 ∧
    (runOnPage 1 allPagesRender
      (loadBook allPagesRender (initialReader "7") (some sampleBook) (some 3) (some 5))
      [Event.pageSliderInput 0]).currentPage = 1 := by
  decide

/-! ## Server: list lemmas -/

theorem filter_after_delete_same {α : Type} (p : α → Bool) (l : List α) :
    (l.filter (fun x => !p x)).filter p = [] := by
  induction l with
  | nil => rfl
  | cons a l ih =>
      cases h : p a <;> simp [List.filter_cons, h, ih]

theorem filter_after_delete_other {α : Type} (p q : α → Bool) (l : List α)
    (h : ∀ x, q x = true → p x = false) :
    (l.filter (fun x => !p x)).filter q = l.filter q := by
  induction l with
  | nil => rfl
  | cons a l ih =>
      cases hq : q a
      · cases hp : p a <;> simp [List.filter_cons, hq, hp, ih]
      · simp [List.filter_cons, hq, h a hq, ih]

theorem find_none_of_filter_nil {α : Type} (p : α → Bool) (l : List α)
    (h : l.filter p = []) : l.find? p = none := by
  induction l with
  | nil => rfl
  | cons a l ih =>
      cases hp : p a
      · simp only [List.filter_cons, hp] at h
        simp [List.find?_cons, hp, ih h]
      · simp [List.filter_cons, hp] at h

theorem any_eq_find_isSome {α : Type} (p : α → Bool) (l : List α) :
    l.any p = (l.find? p).isSome := by
  induction l with
  | nil => rfl
  | cons a l ih =>
      cases hp : p a <;> simp [List.find?_cons, hp, ih]

theorem any_false_of_filter_nil {α : Type} (p : α → Bool) (l : List α)
    (h : l.filter p = []) : l.any p = false := by
  rw [any_eq_find_isSome, find_none_of_filter_nil p l h]
  rfl

/-! ## Server: reading progress -/

theorem insertOrReplaceProgress_rows (db db' : Db) (u b cp tp : Int) (now : Nat)
    (h : insertOrReplaceProgress db u (some b) cp tp now = some db') :
    db'.reading_progress =
      db.reading_progress.filter (fun r => !decide (r.user_id = u ∧ r.book_id = b)) ++
        [{ id := db.reading_progress_seq + 1, user_id := u, book_id := b, current_page := cp,
           total_pages := tp, last_accessed := now }] := by
  unfold insertOrReplaceProgress at h
  simp only [] at h
  split_ifs at h
  simp only [Option.some.injEq] at h
  rw [← h]

theorem postProgress_json (db db' : Db) (session : Option Int) (body : ProgressBody)
    (now : Nat) (sb : SuccessBody)
    (h : postProgress db session body now = (db', Response.json sb)) :
    ∃ u b, requireAuth session = some u ∧ body.bookId = some b ∧
      insertOrReplaceProgress db u (some b) (orDefault (body.currentPage.map jsonInteger) 1)
        (orDefault (body.totalPages.map jsonInteger) 0) now = some db' := by
  unfold postProgress at h
  cases hu : requireAuth session with
  | none => rw [hu] at h; simp at h
  | some u =>
      rw [hu] at h
      simp only [] at h
      cases hb : body.bookId with
      | none =>
          rw [hb] at h
          simp [insertOrReplaceProgress] at h
      | some b =>
          rw [hb] at h
          cases hi : insertOrReplaceProgress db u (some b)
              (orDefault (body.currentPage.map jsonInteger) 1)
              (orDefault (body.totalPages.map jsonInteger) 0) now with
          | none => rw [hi] at h; simp at h
          | some d =>
              rw [hi] at h
              simp only [Prod.mk.injEq] at h
              exact ⟨u, b, rfl, rfl, by rw [hi, h.1]⟩

theorem progressCount_after_insert (db db' : Db) (u b cp tp : Int) (now : Nat)
    (h : insertOrReplaceProgress db u (some b) cp tp now = some db') (u' b' : Int) :
    progressCount db' u' b' = if u' = u ∧ b' = b then 1 else progressCount db u' b' := by
  unfold progressCount
  rw [insertOrReplaceProgress_rows db db' u b cp tp now h, List.filter_append, List.length_append]
  by_cases hk : u' = u ∧ b' = b
  · obtain ⟨rfl, rfl⟩ := hk
    rw [filter_after_delete_same]
    simp
  · rw [if_neg hk, filter_after_delete_other]
    · have : ¬ (u = u' ∧ b = b') := fun hh => hk ⟨hh.1.symm, hh.2.symm⟩
      simp [List.filter_cons, this]
    · intro x hx
      simp only [decide_eq_true_eq] at hx
      simp only [decide_eq_false_iff_not]
      rintro ⟨h1, h2⟩
      exact hk ⟨by rw [← hx.1, h1], by rw [← hx.2, h2]⟩

theorem postProgress_unique (db : Db) (session : Option Int) (body : ProgressBody) (now : Nat)
    (h : ∀ u b, progressCount db u b ≤ 1) :
    ∀ u b, progressCount (postProgress db session body now).1 u b ≤ 1 := by
  intro u' b'
  unfold postProgress
  cases requireAuth session with
  | none => exact h u' b'
  | some u =>
      simp only []
      cases hb : body.bookId with
      | none => simpa [insertOrReplaceProgress] using h u' b'
      | some b =>
          cases hi : insertOrReplaceProgress db u (some b)
              (orDefault (body.currentPage.map jsonInteger) 1)
              (orDefault (body.totalPages.map jsonInteger) 0) now with
          | none => exact h u' b'
          | some d =>
              simp only []
              rw [progressCount_after_insert db d u b _ _ now hi u' b']
              split_ifs
              · exact le_refl 1
              · exact h u' b'

theorem postProgressAll_unique (reqs : List ProgressRequest) (db : Db)
    (h : ∀ u b, progressCount db u b ≤ 1) :
    ∀ u b, progressCount (postProgressAll db reqs) u b ≤ 1 := by
  induction reqs generalizing db with
  | nil => exact h
  | cons r reqs ih =>
      simp only [postProgressAll, List.foldl_cons]
      exact ih _ (postProgress_unique db r.session r.body r.now h)

theorem selectProgress_after_insert (db db' : Db) (u b cp tp : Int) (now : Nat)
    (h : insertOrReplaceProgress db u (some b) cp tp now = some db') :
    selectProgress db' u b =
      some { id := db.reading_progress_seq + 1, user_id := u, book_id := b,
             current_page := cp, total_pages := tp, last_accessed := now } := by
  unfold selectProgress
  rw [insertOrReplaceProgress_rows db db' u b cp tp now h, List.find?_append,
    find_none_of_filter_nil _ _ (filter_after_delete_same _ _)]
  simp

theorem orDefault_zero (x : Int) : orDefault (some x) 0 = x := by
  simp only [orDefault]
  split_ifs with h
  · rfl
  · omega

theorem requireAuth_some (u : Int) (hu : u ≠ 0) : requireAuth (some u) = some u := by
  simp [requireAuth, hu]

theorem requireAuth_eq_some (session : Option Int) (u : Int)
    (h : requireAuth session = some u) : session = some u ∧ u ≠ 0 := by
  unfold requireAuth at h
  cases session with
  | none => simp at h
  | some v =>
      simp only [] at h
      split_ifs at h with hv
      simp only [Option.some.injEq] at h
      subst h
      exact ⟨rfl, hv⟩

theorem excessBits_safe (a : Nat) (h : a < 9007199254740992) : excessBits a a = 0 := by
  cases a with
  | zero => rfl
  | succ k =>
      unfold excessBits
      rw [if_pos h]

theorem jsonInteger_safe (n : Int) (h : n.natAbs < 9007199254740992) : jsonInteger n = n := by
  unfold jsonInteger
  simp only [excessBits_safe n.natAbs h]
  simp only [pow_zero, Nat.div_one, Nat.mod_one, Nat.lt_irrefl, and_false, false_and, or_self,
    if_false, Nat.mul_one, Nat.reduceDiv]
  split_ifs with hn <;> omega

/-- C5, as the code has it. For integers `currentPage` and `totalPages` of
magnitude below `2^53` (the integers a JSON number carries exactly): after
`POST /api/progress` with body `{bookId: b, currentPage, totalPages}`
succeeds as user `u`, `GET /api/progress/b` as user `u` returns a progress
whose `total_pages` is `totalPages` and whose `current_page` is `currentPage`
when `currentPage` is not 0 and 1 when it is 0 (the handler stores
`currentPage || 1`). -/
theorem progress_read_after_write (db db' : Db) (u b cp tp : Int) (now : Nat)
    (hcp : cp.natAbs < 9007199254740992) (htp : tp.natAbs < 9007199254740992)
    (h : postProgress db (some u) ⟨some b, some cp, some tp⟩ now = (db', Response.json ⟨true⟩)) :
    ∃ progress, getProgress db' (some u) b = Response.json progress ∧
      progress.current_page = (if cp ≠ 0 then cp else 1) ∧
      progress.total_pages = tp := by
  obtain ⟨u', b', hu, hb, hi⟩ := postProgress_json db db' _ _ now _ h
  obtain ⟨hs, _⟩ := requireAuth_eq_some _ _ hu
  simp only [Option.some.injEq] at hs hb
  subst hs
  subst hb
  simp only [Option.map_some', jsonInteger_safe cp hcp, jsonInteger_safe tp htp] at hi
  unfold getProgress
  rw [hu]
  simp only []
  rw [selectProgress_after_insert db db' u b _ _ now hi]
  refine ⟨_, rfl, ?_, ?_⟩
  · rfl
  · exact orDefault_zero tp

theorem progress_read_after_write_witness :
    (3 : Int).natAbs < 9007199254740992 ∧ (10 : Int).natAbs < 9007199254740992 ∧
    ∃ progress,
      getProgress (postProgress sampleDb (some 5) ⟨some 7, some 3, some 10⟩ 100).1 (some 5) 7
        = Response.json progress ∧
      progress.current_page = (if (3 : Int) ≠ 0 then 3 else 1) ∧
      progress.total_pages = 10 :=
  ⟨by decide, by decide,
   progress_read_after_write sampleDb _ 5 7 3 10 100 (by decide) (by decide) rfl⟩

/-- C5 as stated fails, in two ways. As user 5, `POST /api/progress` with
body `{bookId: 7, currentPage: 0, totalPages: 10}` succeeds, and
`GET /api/progress/7` then returns the row with `current_page = 1`: no
progress with the posted `current_page = 0` is returned. And the post of
`{bookId: 7, currentPage: 9007199254740993, totalPages: 10}` (`2^53 + 1`)
succeeds, and the progress read back holds `current_page =
9007199254740992`, the double the request body was parsed into; the same
happens to a posted `totalPages` of `9007199254740993`. -/
theorem progress_read_back_differs_from_posted :
    (postProgress sampleDb (some 5) ⟨some 7, some 0, some 10⟩ 100).2 = Response.json ⟨true⟩ ∧
    getProgress (postProgress sampleDb (some 5) ⟨some 7, some 0, some 10⟩ 100).1 (some 5) 7 =
      Response.json ⟨some 1, some 5, some 7, 1, 10, some 100⟩ ∧
    (¬ ∃ progress,
      getProgress (postProgress sampleDb (some 5) ⟨some 7, some 0, some 10⟩ 100).1 (some 5) 7
        = Response.json progress ∧
      progress.current_page = 0 ∧ progress.total_pages = 10) ∧
    (postProgress sampleDb (some 5) ⟨some 7, some 9007199254740993, some 10⟩ 100).2 =
      Response.json ⟨true⟩ ∧
    getProgress (postProgress sampleDb (some 5) ⟨some 7, some 9007199254740993, some 10⟩ 100).1
        (some 5) 7 =
      Response.json ⟨some 1, some 5, some 7, 9007199254740992, 10, some 100⟩ ∧
    getProgress (postProgress sampleDb (some 5) ⟨some 7, some 3, some 9007199254740993⟩ 100).1
        (some 5) 7 =
      Response.json ⟨some 1, some 5, some 7, 3, 9007199254740992, some 100⟩ ∧
    (¬ ∃ progress,
      getProgress (postProgress sampleDb (some 5) ⟨some 7, some 9007199254740993, some 10⟩
        100).1 (some 5) 7 = Response.json progress ∧
      progress.current_page = 9007199254740993 ∧ progress.total_pages = 10) := by
  refine ⟨by decide, by decide, ?_, by decide, by decide, by decide, ?_⟩
  · rintro ⟨progress, h1, h2, _⟩
    have hg : getProgress (postProgress sampleDb (some 5) ⟨some 7, some 0, some 10⟩ 100).1
        (some 5) 7 = Response.json ⟨some 1, some 5, some 7, 1, 10, some 100⟩ := by decide
    rw [hg] at h1
    simp only [Response.json.injEq] at h1
    rw [← h1] at h2
    exact absurd h2 (by decide)
  · rintro ⟨progress, h1, h2, _⟩
    have hg : getProgress (postProgress sampleDb (some 5)
        ⟨some 7, some 9007199254740993, some 10⟩ 100).1 (some 5) 7 =
        Response.json ⟨some 1, some 5, some 7, 9007199254740992, 10, some 100⟩ := by decide
    rw [hg] at h1
    simp only [Response.json.injEq] at h1
    rw [← h1] at h2
    exact absurd h2 (by decide)

/-- C6. From a `reading_progress` table with at most one row per
`(user_id, book_id)` pair, every sequence of `POST /api/progress` requests
leaves at most one row per pair; and two successful posts of the same
`(currentPage, totalPages)` for one `(user, book)` leave exactly one row for
that pair. -/
theorem progress_one_row_per_pair (db : Db) (reqs : List ProgressRequest)
    (h : ∀ u b, progressCount db u b ≤ 1) :
    (∀ u b, progressCount (postProgressAll db reqs) u b ≤ 1) ∧
    (∀ (u b : Int) (cp tp : Option Int) (now1 now2 : Nat) (db1 db2 : Db),
      postProgress db (some u) ⟨some b, cp, tp⟩ now1
        = (db1, Response.json ⟨true⟩) →
      postProgress db1 (some u) ⟨some b, cp, tp⟩ now2
        = (db2, Response.json ⟨true⟩) →
      progressCount db2 u b = 1) := by
  refine ⟨postProgressAll_unique reqs db h, ?_⟩
  intro u b cp tp now1 now2 db1 db2 _ h2
  obtain ⟨u', b', hu, hb, hi⟩ := postProgress_json db1 db2 _ _ now2 _ h2
  obtain ⟨hs, _⟩ := requireAuth_eq_some _ _ hu
  simp only [Option.some.injEq] at hs hb
  subst hs
  subst hb
  rw [progressCount_after_insert db1 db2 u b _ _ now2 hi u b, if_pos ⟨rfl, rfl⟩]

theorem progress_one_row_per_pair_witness :
    (∀ u b, progressCount sampleDb u b ≤ 1) ∧
    (∀ u b, progressCount (postProgressAll sampleDb
      [{ session := some 5, body := ⟨some 7, some 3, some 10⟩, now := 100 },
       { session := some 5, body := ⟨some 7, some 3, some 10⟩, now := 101 },
       { session := none, body := ⟨some 7, some 4, some 10⟩, now := 102 }]) u b ≤ 1) ∧
    progressCount (postProgress (postProgress sampleDb (some 5)
      ⟨some 7, some 3, some 10⟩ 100).1 (some 5)
      ⟨some 7, some 3, some 10⟩ 101).1 5 7 = 1 :=
  ⟨fun _ _ => Nat.zero_le 1,
   (progress_one_row_per_pair sampleDb _ (fun _ _ => Nat.zero_le 1)).1,
   (progress_one_row_per_pair sampleDb [] (fun _ _ => Nat.zero_le 1)).2 5 7 (some 3) (some 10)
      100 101 _ _ rfl rfl⟩

/-- C7. For every authenticated user `u` and book `b` with no
`reading_progress` row for `(u, b)`, `GET /api/progress/b` as `u` answers
with status 200 and the progress `{current_page: 1, total_pages: 0}`. -/
theorem progress_default_when_absent (db : Db) (u b : Int) (hu : u ≠ 0)
    (h : progressCount db u b = 0) :
    getProgress db (some u) b = Response.json defaultProgress ∧
    defaultProgress.current_page = 1 ∧ defaultProgress.total_pages = 0 := by
  refine ⟨?_, rfl, rfl⟩
  unfold getProgress selectProgress
  rw [requireAuth_some u hu]
  simp only []
  rw [find_none_of_filter_nil _ _ (List.length_eq_zero.mp h)]

theorem progress_default_when_absent_witness :
    (5 : Int) ≠ 0 ∧ progressCount sampleDb 5 7 = 0 ∧
    getProgress sampleDb (some 5) 7 = Response.json defaultProgress :=
  ⟨by decide, rfl, (progress_default_when_absent sampleDb 5 7 (by decide) rfl).1⟩

/-! ## Server: favorites -/

theorem filter_nil_of_any_false {α : Type} (p : α → Bool) (l : List α)
    (h : l.any p = false) : l.filter p = [] := by
  induction l with
  | nil => rfl
  | cons a l ih =>
      simp only [List.any_cons, Bool.or_eq_false_iff] at h
      simp [List.filter_cons, h.1, ih h.2]

theorem postFavorite_eq (db : Db) (u b : Int) (now : Nat) (hu : u ≠ 0) :
    postFavorite db (some u) b now =
      if isFavorite db u b = true then
        (deleteFavorite db u b, Response.json ⟨false⟩)
      else
        match insertFavorite db u b now with
        | some db' => (db', Response.json ⟨true⟩)
        | none => (db, Response.error 500 "Failed to toggle favorite") := by
  unfold postFavorite
  rw [requireAuth_some u hu]
  simp only []
  have hany : isFavorite db u b = (selectFavorite db u b).isSome := any_eq_find_isSome _ _
  cases hsel : selectFavorite db u b with
  | none =>
      rw [hsel] at hany
      simp [hany]
  | some r =>
      rw [hsel] at hany
      simp [hany]

theorem isFavorite_deleteFavorite (db : Db) (u b : Int) :
    isFavorite (deleteFavorite db u b) u b = false := by
  unfold isFavorite deleteFavorite
  exact any_false_of_filter_nil _ _ (filter_after_delete_same _ _)

theorem insertFavorite_rows (db db' : Db) (u b : Int) (now : Nat)
    (h : insertFavorite db u b now = some db') :
    isFavorite db u b = false ∧
    db'.favorites = db.favorites ++
      [{ id := db.favorites_seq + 1, user_id := u, book_id := b, created_at := now }] ∧
    db'.users = db.users ∧ db'.books = db.books ∧ db'.foreign_keys = db.foreign_keys := by
  unfold insertFavorite at h
  split_ifs at h with h1 h2
  simp only [Option.some.injEq] at h
  subst h
  exact ⟨by simpa [isFavorite] using h1, rfl, rfl, rfl, rfl⟩

theorem insertFavorite_isSome (db : Db) (u b : Int) (now : Nat)
    (hfav : isFavorite db u b = false)
    (hrefs : db.foreign_keys = true → db.refsExist u b = true) :
    ∃ db', insertFavorite db u b now = some db' := by
  unfold insertFavorite
  unfold isFavorite at hfav
  rw [if_neg (by rw [hfav]; decide), if_neg]
  · exact ⟨_, rfl⟩
  · rintro ⟨hfk, hr⟩
    rw [hrefs hfk] at hr
    exact absurd hr (by decide)

theorem isFavorite_after_insert (db db' : Db) (u b : Int) (now : Nat)
    (h : insertFavorite db u b now = some db') : isFavorite db' u b = true := by
  unfold isFavorite
  rw [(insertFavorite_rows db db' u b now h).2.1]
  simp

theorem insertFavorite_none_any_time (db : Db) (u b : Int) (now1 now2 : Nat)
    (h : insertFavorite db u b now1 = none) : insertFavorite db u b now2 = none := by
  unfold insertFavorite at h ⊢
  split_ifs at h ⊢ <;> rfl

theorem postFavorite_unauthenticated (db : Db) (session : Option Int) (b : Int) (now : Nat)
    (h : requireAuth session = none) : (postFavorite db session b now).1 = db := by
  unfold postFavorite
  rw [h]

theorem favoriteCount_deleteFavorite_le (db : Db) (u b u' b' : Int) :
    favoriteCount (deleteFavorite db u b) u' b' ≤ favoriteCount db u' b' := by
  unfold favoriteCount deleteFavorite
  by_cases hk : u' = u ∧ b' = b
  · obtain ⟨rfl, rfl⟩ := hk
    simp only []
    rw [filter_after_delete_same]
    exact Nat.zero_le _
  · simp only []
    rw [filter_after_delete_other]
    intro x hx
    simp only [decide_eq_true_eq] at hx
    simp only [decide_eq_false_iff_not]
    rintro ⟨h1, h2⟩
    exact hk ⟨by rw [← hx.1, h1], by rw [← hx.2, h2]⟩

theorem favoriteCount_after_insert (db db' : Db) (u b : Int) (now : Nat)
    (h : insertFavorite db u b now = some db') (u' b' : Int) :
    favoriteCount db' u' b' = if u' = u ∧ b' = b then 1 else favoriteCount db u' b' := by
  obtain ⟨hfav, hrows, _⟩ := insertFavorite_rows db db' u b now h
  unfold favoriteCount
  rw [hrows, List.filter_append, List.length_append]
  by_cases hk : u' = u ∧ b' = b
  · obtain ⟨rfl, rfl⟩ := hk
    rw [filter_nil_of_any_false _ _ hfav]
    simp
  · rw [if_neg hk]
    have : ¬ (u = u' ∧ b = b') := fun hh => hk ⟨hh.1.symm, hh.2.symm⟩
    simp [List.filter_cons, this]

theorem postFavorite_unique (db : Db) (session : Option Int) (b : Int) (now : Nat)
    (h : ∀ u b, favoriteCount db u b ≤ 1) :
    ∀ u' b', favoriteCount (postFavorite db session b now).1 u' b' ≤ 1 := by
  intro u' b'
  cases hs : requireAuth session with
  | none => rw [postFavorite_unauthenticated db session b now hs]; exact h u' b'
  | some u =>
      obtain ⟨rfl, hu⟩ := requireAuth_eq_some session u hs
      rw [postFavorite_eq db u b now hu]
      split_ifs
      · exact le_trans (favoriteCount_deleteFavorite_le db u b u' b') (h u' b')
      · cases hi : insertFavorite db u b now with
        | none => exact h u' b'
        | some d =>
            simp only []
            rw [favoriteCount_after_insert db d u b now hi u' b']
            split_ifs
            · exact le_refl 1
            · exact h u' b'

theorem postFavoriteAll_unique (reqs : List FavoriteRequest) (db : Db)
    (h : ∀ u b, favoriteCount db u b ≤ 1) :
    ∀ u b, favoriteCount (postFavoriteAll db reqs) u b ≤ 1 := by
  induction reqs generalizing db with
  | nil => exact h
  | cons r reqs ih =>
      simp only [postFavoriteAll, List.foldl_cons]
      exact ih _ (postFavorite_unique db r.session r.bookId r.now h)

theorem refsExist_of_isFavorite (db : Db) (u b : Int) (hres : db.favoritesResolve)
    (hfav : isFavorite db u b = true) : db.foreign_keys = true → db.refsExist u b = true := by
  intro hfk
  unfold isFavorite at hfav
  rw [List.any_eq_true] at hfav
  obtain ⟨r, hr, hk⟩ := hfav
  simp only [decide_eq_true_eq] at hk
  have := hres hfk r hr
  rw [hk.1, hk.2] at this
  exact this

theorem postFavorite_twice (db : Db) (u b : Int) (now1 now2 : Nat) (hu : u ≠ 0)
    (hres : db.favoritesResolve) :
    isFavorite (postFavorite (postFavorite db (some u) b now1).1 (some u) b now2).1 u b =
      isFavorite db u b := by
  rw [postFavorite_eq db u b now1 hu]
  by_cases hfav : isFavorite db u b = true
  · rw [if_pos hfav]
    simp only []
    rw [postFavorite_eq _ u b now2 hu, if_neg (by rw [isFavorite_deleteFavorite]; decide)]
    obtain ⟨d, hd⟩ := insertFavorite_isSome (deleteFavorite db u b) u b now2
      (isFavorite_deleteFavorite db u b) (refsExist_of_isFavorite db u b hres hfav)
    rw [hd]
    simp only []
    rw [isFavorite_after_insert _ d u b now2 hd, hfav]
  · rw [if_neg hfav]
    cases hi : insertFavorite db u b now1 with
    | none =>
        simp only []
        rw [postFavorite_eq db u b now2 hu, if_neg hfav,
          insertFavorite_none_any_time db u b now1 now2 hi]
    | some d =>
        simp only []
        rw [postFavorite_eq d u b now2 hu, if_pos (isFavorite_after_insert db d u b now1 hi)]
        simp only []
        rw [isFavorite_deleteFavorite]
        simpa using hfav

/-- C8. In a database whose `favorites` rows are unique per `(user_id,
book_id)` and resolve their foreign keys when these are enforced: posting
`/api/favorites/b` as `u` twice in succession leaves `(u, b)` favorited
exactly if it was favorited before, with at most one row for the pair, and
after any sequence of toggles every pair has at most one `favorites` row. -/
theorem favorite_toggle_twice (db : Db) (u b : Int) (now1 now2 : Nat)
    (reqs : List FavoriteRequest) (hres : db.favoritesResolve)
    (h : ∀ u b, favoriteCount db u b ≤ 1) :
    isFavorite (postFavorite (postFavorite db (some u) b now1).1 (some u) b now2).1 u b =
      isFavorite db u b ∧
    favoriteCount (postFavorite (postFavorite db (some u) b now1).1 (some u) b now2).1 u b ≤ 1 ∧
    (∀ u' b', favoriteCount (postFavoriteAll db reqs) u' b' ≤ 1) := by
  refine ⟨?_, ?_, postFavoriteAll_unique reqs db h⟩
  · by_cases hu : u = 0
    · have hna : requireAuth (some u) = none := by simp [requireAuth, hu]
      rw [postFavorite_unauthenticated db (some u) b now1 hna,
        postFavorite_unauthenticated db (some u) b now2 hna]
    · exact postFavorite_twice db u b now1 now2 hu hres
  · exact postFavorite_unique _ (some u) b now2
      (postFavorite_unique db (some u) b now1 h) u b

theorem favorite_toggle_twice_witness :
    isFavorite (postFavorite (postFavorite sampleDb (some 5) 7 100).1 (some 5) 7 101).1 5 7 =
      isFavorite sampleDb 5 7 ∧
    isFavorite (postFavorite sampleDb (some 5) 7 100).1 5 7 = true ∧
    favoriteCount (postFavoriteAll sampleDb
      [⟨some 5, 7, 100⟩, ⟨some 5, 7, 101⟩, ⟨some 5, 7, 102⟩]) 5 7 ≤ 1 :=
  ⟨(favorite_toggle_twice sampleDb 5 7 100 101 []
      (fun _ r hr => absurd hr (List.not_mem_nil r)) (fun _ _ => Nat.zero_le 1)).1,
   by decide,
   (favorite_toggle_twice sampleDb 5 7 100 101
      [⟨some 5, 7, 100⟩, ⟨some 5, 7, 101⟩, ⟨some 5, 7, 102⟩]
      (fun _ r hr => absurd hr (List.not_mem_nil r)) (fun _ _ => Nat.zero_le 1)).2.2 5 7⟩

/-- C9. For every authenticated user `u` and book `b` (both present in their
tables when foreign keys are enforced), `POST /api/favorites/b` as `u`
answers `{favorited}` with `favorited = true` exactly when no `favorites`
row for `(u, b)` existed before the call, and after the call a row for
`(u, b)` exists exactly when the reported `favorited` is true. -/
theorem favorite_toggle_reports (db : Db) (u b : Int) (now : Nat) (hu : u ≠ 0)
    (hrefs : db.foreign_keys = true → db.refsExist u b = true) :
    ∃ db' favorited,
      postFavorite db (some u) b now = (db', Response.json ⟨favorited⟩) ∧
      (favorited = true ↔ isFavorite db u b = false) ∧
      (isFavorite db' u b = true ↔ favorited = true) := by
  rw [postFavorite_eq db u b now hu]
  by_cases hfav : isFavorite db u b = true
  · rw [if_pos hfav]
    refine ⟨_, false, rfl, ?_, ?_⟩
    · rw [hfav]; decide
    · rw [isFavorite_deleteFavorite]
  · rw [if_neg hfav]
    have hf : isFavorite db u b = false := by simpa using hfav
    obtain ⟨d, hd⟩ := insertFavorite_isSome db u b now hf hrefs
    rw [hd]
    refine ⟨d, true, rfl, ?_, ?_⟩
    · rw [hf]; decide
    · rw [isFavorite_after_insert db d u b now hd]

theorem favorite_toggle_reports_witness :
    (5 : Int) ≠ 0 ∧ sampleDb.refsExist 5 7 = true ∧
    ∃ db' favorited,
      postFavorite sampleDb (some 5) 7 100 = (db', Response.json ⟨favorited⟩) ∧
      (favorited = true ↔ isFavorite sampleDb 5 7 = false) ∧
      (isFavorite db' 5 7 = true ↔ favorited = true) :=
  ⟨by decide, by decide,
   favorite_toggle_reports sampleDb 5 7 100 (by decide) (fun _ => by decide)⟩

/-! ## Reader: parity of the current page -/

theorem runTimer_odd (pdfDoc : Int → Bool) (s : Reader) (t : Timer)
    (ht : s.totalPages % 2 = 1) (hc : s.currentPage % 2 = 1) :
    (runTimer pdfDoc s t).totalPages = s.totalPages ∧
    (runTimer pdfDoc s t).currentPage % 2 = 1 := by
  cases t with
  | flipNextCommit =>
      simp only [runTimer, goToPage_eq, renderPages_eq]
      split_ifs <;> simp only [true_and] <;> omega
  | flipPrevAnimate a b => exact ⟨rfl, hc⟩
  | flipPrevCommit =>
      simp only [runTimer, goToPage_eq, renderPages_eq, true_and]
      omega
  | toastHide => exact ⟨rfl, hc⟩

theorem step_odd (pdfDoc : Int → Bool) (s : Reader) (e : Event) (he : e.isFlip)
    (ht : s.totalPages % 2 = 1) (hc : s.currentPage % 2 = 1) :
    (step pdfDoc s e).totalPages = s.totalPages ∧
    (step pdfDoc s e).currentPage % 2 = 1 := by
  cases e with
  | flipNext =>
      rw [show step pdfDoc s Event.flipNext = flipNext s from rfl, flipNext_currentPage,
        flipNext_totalPages]
      exact ⟨rfl, hc⟩
  | flipPrev =>
      rw [show step pdfDoc s Event.flipPrev = flipPrev pdfDoc s from rfl, flipPrev_currentPage,
        flipPrev_totalPages]
      exact ⟨rfl, hc⟩
  | goToPage n => exact absurd he (by simp [Event.isFlip])
  | pageInputChange page => exact absurd he (by simp [Event.isFlip])
  | pageSliderInput page => exact absurd he (by simp [Event.isFlip])
  | timer i =>
      simp only [step, fireTimer]
      cases s.timers.get? i with
      | none => exact ⟨rfl, hc⟩
      | some t => exact runTimer_odd pdfDoc { s with timers := s.timers.eraseIdx i } t ht hc

theorem run_odd (pdfDoc : Int → Bool) (evs : List Event) (s : Reader)
    (he : ∀ e ∈ evs, e.isFlip)
    (ht : s.totalPages % 2 = 1) (hc : s.currentPage % 2 = 1) :
    (run pdfDoc s evs).totalPages = s.totalPages ∧
    (run pdfDoc s evs).currentPage % 2 = 1 := by
  induction evs generalizing s with
  | nil => exact ⟨rfl, hc⟩
  | cons e evs ih =>
      have hs := step_odd pdfDoc s e (he e (List.mem_cons_self e evs)) ht hc
      have hr := ih (step pdfDoc s e) (fun e' he' => he e' (List.mem_cons_of_mem e he'))
        (by rw [hs.1]; exact ht) hs.2
      simp only [run, List.foldl_cons] at hr ⊢
      rw [hs.1] at hr
      exact hr

/-- C11, as the code has it. After a load at page 1 of a document whose
`totalPages` is odd, through any sequence of `flipNext` and `flipPrev` calls
and timer callbacks, `totalPages` is unchanged and `currentPage` is an odd
number. -/
theorem currentPage_odd_when_total_odd (pdfDoc : Int → Bool) (s0 : Reader) (b : BookData)
    (n : Int) (evs : List Event) (hn : n % 2 = 1) (he : ∀ e ∈ evs, e.isFlip) :
    (run pdfDoc (loadBook pdfDoc s0 (some b) (some 1) (some n)) evs).totalPages = n ∧
    (run pdfDoc (loadBook pdfDoc s0 (some b) (some 1) (some n)) evs).currentPage % 2 = 1 := by
  have hl := loadBook_success pdfDoc s0 b 1 n
  have hr := run_odd pdfDoc evs (loadBook pdfDoc s0 (some b) (some 1) (some n)) he
    (by rw [hl.1]; exact hn) (by rw [hl.2]; simp only [if_pos (show (1 : Int) ≠ 0 by decide)]; omega)
  rw [hl.1] at hr
  exact hr

theorem currentPage_odd_when_total_odd_witness :
    (5 : Int) % 2 = 1 ∧
    (run allPagesRender
      (loadBook allPagesRender (initialReader "7") (some sampleBook) (some 1) (some 5))
      [Event.flipNext, Event.timer 0, Event.flipNext, Event.timer 0, Event.flipNext,
        Event.flipPrev, Event.timer 0, Event.timer 0]).currentPage % 2 = 1 :=
  ⟨by decide,
   (currentPage_odd_when_total_odd allPagesRender (initialReader "7") sampleBook 5
      [Event.flipNext, Event.timer 0, Event.flipNext, Event.timer 0, Event.flipNext,
        Event.flipPrev, Event.timer 0, Event.timer 0] (by decide) (by decide)).2⟩

/-- C11 as stated fails. After a load at page 1 of a two-page document, one
`flipNext` and the firing of its timer leave `currentPage = 2` (the advance
to 3 is clamped to `totalPages`), an even number. -/
theorem flipNext_clamps_to_even_page :
    (loadBook allPagesRender (initialReader "7") (some sampleBook) (some 1)
      (some 2)).currentPage = 1 ∧
    (run allPagesRender
      (loadBook allPagesRender (initialReader "7") (some sampleBook) (some 1) (some 2))
      [Event.flipNext, Event.timer 0]).currentPage = 2 ∧
    ¬ ((run allPagesRender
      (loadBook allPagesRender (initialReader "7") (some sampleBook) (some 1) (some 2))
      [Event.flipNext, Event.timer 0]).currentPage % 2 = 1) := by
  decide

/-! ## Reader: loading, page entry, rendering -/

theorem loadBook_saved (pdfDoc : Int → Bool) (s : Reader) (b : BookData) (p n : Int) :
    (loadBook pdfDoc s (some b) (some p) (some n)).bookId = s.bookId ∧
    (loadBook pdfDoc s (some b) (some p) (some n)).saved =
      s.saved ++
        [{ bookId := s.bookId, currentPage := max 1 (min (if p ≠ 0 then p else 1) n),
           totalPages := n },
         { bookId := s.bookId, currentPage := max 1 (min (if p ≠ 0 then p else 1) n),
           totalPages := n }] := by
  simp only [loadBook, goToPage_eq, renderPages_eq, showLoading, saveProgress]
  split_ifs <;> simp

/-- C12. For every persisted page `p` and every document with `t ≥ 1` pages,
a successful `loadBook` ends with `totalPages = t` and `currentPage = max(1,
min(p, t))`, and has issued progress writes (two of them) each carrying the
reader's `bookId`, that `currentPage` and `t`; when the server holds no
progress row for the user and the book, its answer makes `loadBook` end at
`currentPage = 1`. -/
theorem loadBook_restores_progress (pdfDoc : Int → Bool) (s0 : Reader) (b : BookData)
    (p t : Int) (ht : 1 ≤ t) :
    (loadBook pdfDoc s0 (some b) (some p) (some t)).currentPage = max 1 (min p t) ∧
    (loadBook pdfDoc s0 (some b) (some p) (some t)).totalPages = t ∧
    (loadBook pdfDoc s0 (some b) (some p) (some t)).saved =
      s0.saved ++ [{ bookId := s0.bookId, currentPage := max 1 (min p t), totalPages := t },
                   { bookId := s0.bookId, currentPage := max 1 (min p t), totalPages := t }] ∧
    ({ bookId := s0.bookId, currentPage := max 1 (min p t), totalPages := t } : ProgressWrite) ∈
      (loadBook pdfDoc s0 (some b) (some p) (some t)).saved ∧
    (∀ (db : Db) (u bookId : Int), u ≠ 0 → progressCount db u bookId = 0 →
      (loadBook pdfDoc s0 (some b) (progressOfResponse (getProgress db (some u) bookId))
        (some t)).currentPage = 1) := by
  have hl := loadBook_success pdfDoc s0 b p t
  have hs := loadBook_saved pdfDoc s0 b p t
  have hc : max 1 (min (if p ≠ 0 then p else 1) t) = max 1 (min p t) := by
    split_ifs <;> omega
  rw [hc] at hl hs
  refine ⟨hl.2, hl.1, hs.2, ?_, ?_⟩
  · rw [hs.2]
    simp
  · intro db u bookId hu hcount
    have hg : getProgress db (some u) bookId = Response.json defaultProgress := by
      unfold getProgress selectProgress
      rw [requireAuth_some u hu]
      simp only []
      rw [find_none_of_filter_nil _ _ (List.length_eq_zero.mp hcount)]
    rw [hg]
    have h1 := (loadBook_success pdfDoc s0 b 1 t).2
    simp only [progressOfResponse, defaultProgress]
    rw [h1]
    simp only [if_pos (show (1 : Int) ≠ 0 by decide)]
    omega

theorem loadBook_restores_progress_witness :
    (1 : Int) ≤ 5 ∧
    (loadBook allPagesRender (initialReader "7") (some sampleBook) (some 9)
      (some 5)).currentPage = max 1 (min 9 5) ∧
    (loadBook allPagesRender (initialReader "7") (some sampleBook)
      (progressOfResponse (getProgress sampleDb (some 5) 7)) (some 5)).currentPage = 1 :=
  ⟨by decide,
   (loadBook_restores_progress allPagesRender (initialReader "7") sampleBook 9 5
      (by decide)).1,
   (loadBook_restores_progress allPagesRender (initialReader "7") sampleBook 9 5
      (by decide)).2.2.2.2 sampleDb 5 7 (by decide) rfl⟩

/-- C13, as the code has it. A page number `n` with `1 ≤ n ≤ totalPages`
entered through the page-number input is handed to `goToPage` and the reader
ends with `currentPage = n`; an entry outside `[1, totalPages]`, or one that
does not parse, is rejected: `currentPage` keeps its value, no progress write
is issued and only the input field is reset to `currentPage`. -/
theorem pageInput_accepts_in_range_only (pdfDoc : Int → Bool) (s : Reader) (n : Int) :
    (1 ≤ n ∧ n ≤ s.totalPages →
      pageInputChange pdfDoc s (some n) = goToPage pdfDoc s n ∧
      (pageInputChange pdfDoc s (some n)).currentPage = n) ∧
    (¬ (1 ≤ n ∧ n ≤ s.totalPages) →
      pageInputChange pdfDoc s (some n) = { s with pageInput := s.currentPage }) ∧
    pageInputChange pdfDoc s none = { s with pageInput := s.currentPage } := by
  refine ⟨?_, ?_, rfl⟩
  · intro h
    have he : pageInputChange pdfDoc s (some n) = goToPage pdfDoc s n := by
      simp only [pageInputChange]
      rw [if_pos ⟨h.1, h.2⟩]
    refine ⟨he, ?_⟩
    rw [he, goToPage_eq]
    simp only []
    omega
  · intro h
    simp only [pageInputChange]
    rw [if_neg (fun hh => h ⟨hh.1, hh.2⟩)]

theorem pageInput_accepts_in_range_only_witness :
    ((1 : Int) ≤ 4 ∧ (4 : Int) ≤ (readerAt 3 10 []).totalPages) ∧
    (pageInputChange allPagesRender (readerAt 3 10 []) (some 4)).currentPage = 4 ∧
    ¬ ((1 : Int) ≤ 42 ∧ (42 : Int) ≤ (readerAt 3 10 []).totalPages) ∧
    pageInputChange allPagesRender (readerAt 3 10 []) (some 42) = readerAt 3 10 [] :=
  ⟨by decide,
   ((pageInput_accepts_in_range_only allPagesRender (readerAt 3 10 []) 4).1 (by decide)).2,
   by decide,
   (pageInput_accepts_in_range_only allPagesRender (readerAt 3 10 []) 42).2.1 (by decide)⟩

/-- C13 as stated fails. With `currentPage = 3` and `totalPages = 10`, the
entry 42 is rejected: `currentPage` stays 3, not `max(1, min(42, 10)) = 10`,
and the entry 0 leaves it at 3 as well, not 1. -/
theorem pageInput_out_of_range_rejected :
    (pageInputChange allPagesRender (readerAt 3 10 []) (some 42)).currentPage = 3 ∧
    (pageInputChange allPagesRender (readerAt 3 10 []) (some 42)).currentPage ≠
      max 1 (min 42 (readerAt 3 10 []).totalPages) ∧
    (pageInputChange allPagesRender (readerAt 3 10 []) (some 0)).currentPage ≠
      max 1 (min 0 (readerAt 3 10 []).totalPages) := by
  decide

/-- C17. For every reader state with `1 ≤ currentPage ≤ totalPages` and a
document whose pages `1 .. totalPages` all render, `renderPages` leaves in
`#book` exactly the pages `currentPage` and `currentPage + 1` when
`currentPage + 1 ≤ totalPages` and exactly the page `currentPage` otherwise;
no displayed page is numbered above `totalPages`. -/
theorem renderPages_spread (pdfDoc : Int → Bool) (s : Reader)
    (h1 : 1 ≤ s.currentPage) (h2 : s.currentPage ≤ s.totalPages)
    (hr : ∀ n, 1 ≤ n → n ≤ s.totalPages → pdfDoc n = true) :
    (renderPages pdfDoc s).book =
      (if s.currentPage + 1 ≤ s.totalPages
        then [⟨s.currentPage, NavZone.prev⟩, ⟨s.currentPage + 1, NavZone.next⟩]
        else [⟨s.currentPage, NavZone.prev⟩]) ∧
    (renderPages pdfDoc s).book.map PageElement.dataPage =
      (if s.currentPage + 1 ≤ s.totalPages then [s.currentPage, s.currentPage + 1]
        else [s.currentPage]) ∧
    (∀ p ∈ (renderPages pdfDoc s).book, p.dataPage ≤ s.totalPages) := by
  have hb : (renderPages pdfDoc s).book =
      (if s.currentPage + 1 ≤ s.totalPages
        then [⟨s.currentPage, NavZone.prev⟩, ⟨s.currentPage + 1, NavZone.next⟩]
        else [⟨s.currentPage, NavZone.prev⟩]) := by
    rw [renderPages_eq]
    simp only [spreadOf, hr s.currentPage h1 h2, if_true]
    by_cases hlt : s.currentPage + 1 ≤ s.totalPages
    · rw [if_pos hlt, if_pos ⟨by omega, hr (s.currentPage + 1) (by omega) hlt⟩]
      rfl
    · rw [if_neg hlt, if_neg (fun hh => hlt (by omega))]
      rfl
  refine ⟨hb, ?_, ?_⟩
  · rw [hb]
    split_ifs <;> rfl
  · rw [hb]
    intro p hp
    split_ifs at hp with hlt
    · simp only [List.mem_cons, List.mem_singleton, List.not_mem_nil, or_false] at hp
      rcases hp with rfl | rfl
      · exact h2
      · exact hlt
    · simp only [List.mem_singleton] at hp
      rw [hp]
      exact h2

theorem renderPages_spread_witness :
    (renderPages allPagesRender (readerAt 3 10 [])).book.map PageElement.dataPage = [3, 4] ∧
    (renderPages allPagesRender (readerAt 10 10 [])).book.map PageElement.dataPage = [10] :=
  ⟨(renderPages_spread allPagesRender (readerAt 3 10 []) (by decide) (by decide)
      (fun _ _ _ => rfl)).2.1,
   (renderPages_spread allPagesRender (readerAt 10 10 []) (by decide) (by decide)
      (fun _ _ _ => rfl)).2.1⟩

/-! ## Reader: flipping forward to the last page -/

theorem spreadOf_full (pdfDoc : Int → Bool) (c t : Int) (h1 : 1 ≤ c) (hlt : c < t)
    (hr : ∀ n, 1 ≤ n → n ≤ t → pdfDoc n = true) :
    spreadOf pdfDoc c t = [⟨c, NavZone.prev⟩, ⟨c + 1, NavZone.next⟩] := by
  simp [spreadOf, hr c h1 (by omega), hlt, hr (c + 1) (by omega) (by omega)]

theorem spreadOf_last (pdfDoc : Int → Bool) (t : Int) (h1 : 1 ≤ t)
    (hr : ∀ n, 1 ≤ n → n ≤ t → pdfDoc n = true) :
    spreadOf pdfDoc t t = [⟨t, NavZone.prev⟩] := by
  simp [spreadOf, hr t h1 (le_refl t)]

theorem completeFlipNext_step (pdfDoc : Int → Bool) (s : Reader)
    (hf : s.isFlipping = false) (hb : s.book = spreadOf pdfDoc s.currentPage s.totalPages)
    (h1 : 1 ≤ s.currentPage) (hlt : s.currentPage + 2 ≤ s.totalPages)
    (hr : ∀ n, 1 ≤ n → n ≤ s.totalPages → pdfDoc n = true) :
    flipNext s ≠ s ∧
    (completeFlipNext pdfDoc s).currentPage = s.currentPage + 2 ∧
    (completeFlipNext pdfDoc s).totalPages = s.totalPages ∧
    (completeFlipNext pdfDoc s).isFlipping = false ∧
    (completeFlipNext pdfDoc s).book =
      spreadOf pdfDoc (s.currentPage + 2) s.totalPages := by
  have hfull := spreadOf_full pdfDoc s.currentPage s.totalPages h1 (by omega) hr
  have hl : (querySelector s s.currentPage).isSome = true := by
    unfold querySelector
    rw [hb, hfull]
    simp
  have hq : (querySelector s (s.currentPage + 1)).isSome = true := by
    unfold querySelector
    rw [hb, hfull]
    simp [List.find?_cons]
  have hs := flipNext_start s hf (by omega) hl hq
  have hmax : max 1 (min (s.currentPage + 2) s.totalPages) = s.currentPage + 2 := by omega
  have hcommit : completeFlipNext pdfDoc s =
      runTimer pdfDoc { s with isFlipping := true } Timer.flipNextCommit := by
    unfold completeFlipNext
    rw [fireTimer_last pdfDoc (flipNext s) s.timers Timer.flipNextCommit (by rw [hs]), hs]
  refine ⟨?_, ?_, ?_, ?_, ?_⟩
  · intro heq
    have hflag := congrArg Reader.isFlipping heq
    rw [hs] at hflag
    simp [hf] at hflag
  · rw [hcommit]
    simp only [runTimer, goToPage_eq, renderPages_eq]
    split_ifs <;> dsimp only <;> omega
  · rw [hcommit]
    simp only [runTimer, goToPage_eq, renderPages_eq]
    split_ifs <;> rfl
  · rw [hcommit]
    simp only [runTimer]
  · rw [hcommit]
    simp only [runTimer, goToPage_eq, renderPages_eq]
    split_ifs with hgt
    · exact absurd hgt (by omega)
    · dsimp only
      rw [hmax]

theorem flipNextTimes_advance (pdfDoc : Int → Bool) (k : Nat) (s : Reader)
    (hf : s.isFlipping = false) (hb : s.book = spreadOf pdfDoc s.currentPage s.totalPages)
    (h1 : 1 ≤ s.currentPage) (hle : s.currentPage + 2 * (k : Int) ≤ s.totalPages)
    (hr : ∀ n, 1 ≤ n → n ≤ s.totalPages → pdfDoc n = true) :
    (flipNextTimes pdfDoc k s).currentPage = s.currentPage + 2 * (k : Int) ∧
    (flipNextTimes pdfDoc k s).totalPages = s.totalPages ∧
    (flipNextTimes pdfDoc k s).isFlipping = false ∧
    (flipNextTimes pdfDoc k s).book =
      spreadOf pdfDoc (s.currentPage + 2 * (k : Int)) s.totalPages := by
  induction k generalizing s with
  | zero =>
      have h0 : s.currentPage + 2 * ((0 : Nat) : Int) = s.currentPage := by simp
      rw [h0]
      exact ⟨rfl, rfl, hf, hb⟩
  | succ k ih =>
      have hk : ((k + 1 : Nat) : Int) = (k : Int) + 1 := by push_cast; rfl
      rw [hk] at hle ⊢
      obtain ⟨_, hc, ht, hf', hb'⟩ := completeFlipNext_step pdfDoc s hf hb h1 (by omega) hr
      have := ih (completeFlipNext pdfDoc s) hf' (by rw [hb', hc, ht]) (by rw [hc]; omega)
        (by rw [hc, ht]; omega) (by rw [ht]; exact hr)
      rw [hc, ht] at this
      have he : s.currentPage + 2 + 2 * (k : Int) = s.currentPage + 2 * ((k : Int) + 1) := by
        ring
      rw [he] at this
      exact this

/-- C18, as the code has it. For every odd `totalPages = 2k + 1` of a
document whose pages all render, starting at `currentPage = 1` with the
spread of page 1 displayed and no flip in flight: each of the first `k`
`flipNext` calls is not a no-op, and after these `k` completed transitions
`flipNext` is a no-op, `currentPage = totalPages`, and `#book` holds the left
page `totalPages` alone, with a `prev` zone and no `next` zone. -/
theorem flipNext_reaches_last_page (pdfDoc : Int → Bool) (s : Reader) (k : Nat)
    (hc : s.currentPage = 1) (ht : s.totalPages = 2 * (k : Int) + 1)
    (hf : s.isFlipping = false) (hb : (renderPages pdfDoc s).book = s.book)
    (hr : ∀ n, 1 ≤ n → n ≤ s.totalPages → pdfDoc n = true) :
    (∀ j, j < k → flipNext (flipNextTimes pdfDoc j s) ≠ flipNextTimes pdfDoc j s) ∧
    flipNext (flipNextTimes pdfDoc k s) = flipNextTimes pdfDoc k s ∧
    (flipNextTimes pdfDoc k s).currentPage = s.totalPages ∧
    (flipNextTimes pdfDoc k s).book = [⟨s.totalPages, NavZone.prev⟩] ∧
    (∀ p ∈ (flipNextTimes pdfDoc k s).book, p.navZone ≠ NavZone.next) := by
  have hb' : s.book = spreadOf pdfDoc s.currentPage s.totalPages := by
    rw [← hb, renderPages_eq]
  have hfin := flipNextTimes_advance pdfDoc k s hf hb' (by omega) (by omega) hr
  have hcp : (flipNextTimes pdfDoc k s).currentPage = s.totalPages := by
    rw [hfin.1]; omega
  have hbook : (flipNextTimes pdfDoc k s).book = [⟨s.totalPages, NavZone.prev⟩] := by
    rw [hfin.2.2.2]
    have he : s.currentPage + 2 * (k : Int) = s.totalPages := by omega
    rw [he]
    exact spreadOf_last pdfDoc s.totalPages (by omega) hr
  refine ⟨?_, ?_, hcp, hbook, ?_⟩
  · intro j hj
    have hjk : (j : Int) + 1 ≤ (k : Int) := by exact_mod_cast hj
    have hstep := flipNextTimes_advance pdfDoc j s hf hb' (by omega) (by omega) hr
    exact (completeFlipNext_step pdfDoc (flipNextTimes pdfDoc j s) hstep.2.2.1
      (by rw [hstep.2.2.2, hstep.1, hstep.2.1]) (by rw [hstep.1]; omega)
      (by rw [hstep.1, hstep.2.1]; omega) (by rw [hstep.2.1]; exact hr)).1
  · unfold flipNext
    rw [if_pos (Or.inr (by rw [hcp, hfin.2.1]))]
  · rw [hbook]
    intro p hp
    simp only [List.mem_singleton] at hp
    rw [hp]
    exact fun h => NavZone.noConfusion h

theorem flipNext_reaches_last_page_witness :
    (flipNextTimes allPagesRender 2
      (readerAt 1 5 [⟨1, NavZone.prev⟩, ⟨2, NavZone.next⟩])).currentPage = 5 ∧
    (flipNextTimes allPagesRender 2
      (readerAt 1 5 [⟨1, NavZone.prev⟩, ⟨2, NavZone.next⟩])).book = [⟨5, NavZone.prev⟩] :=
  ⟨(flipNext_reaches_last_page allPagesRender
      (readerAt 1 5 [⟨1, NavZone.prev⟩, ⟨2, NavZone.next⟩]) 2 rfl rfl rfl (by decide)
      (fun _ _ _ => rfl)).2.2.1,
   (flipNext_reaches_last_page allPagesRender
      (readerAt 1 5 [⟨1, NavZone.prev⟩, ⟨2, NavZone.next⟩]) 2 rfl rfl rfl (by decide)
      (fun _ _ _ => rfl)).2.2.2.1⟩

/-- C18 as stated fails. A three-page document whose page 2 does not render
is loaded at page 1: `#book` holds page 1 alone, `flipNext` is a no-op from
the start (no transition completes), and the reader stays at `currentPage =
1`, not at `totalPages = 3`. -/
theorem flipNext_stuck_before_last_page :
    (loadBook pageTwoFails (initialReader "7") (some sampleBook) (some 1)
      (some 3)).currentPage = 1 ∧
    (loadBook pageTwoFails (initialReader "7") (some sampleBook) (some 1)
      (some 3)).totalPages = 3 ∧
    (loadBook pageTwoFails (initialReader "7") (some sampleBook) (some 1)
      (some 3)).book = [⟨1, NavZone.prev⟩] ∧
    flipNext (loadBook pageTwoFails (initialReader "7") (some sampleBook) (some 1) (some 3)) =
      loadBook pageTwoFails (initialReader "7") (some sampleBook) (some 1) (some 3) ∧
    (completeFlipNext pageTwoFails
      (loadBook pageTwoFails (initialReader "7") (some sampleBook) (some 1)
        (some 3))).currentPage ≠ 3 := by
  decide

/-! ## Reader: a missing right page, and the slider -/

/-- C19, as the code has it. For every reader state with `isFlipping` false
and `currentPage < totalPages` in which the right-hand page `currentPage + 1`
is absent from `#book`, `flipNext` aborts: it returns the state it was given,
so `currentPage` is unchanged, the lock is released, no timer is set and no
progress write is issued.  Navigation that does not read `#book` still
works: `goToPage(currentPage + 2)` ends at `max(1, min(currentPage + 2,
totalPages))`. -/
theorem flipNext_aborts_without_right_page (pdfDoc : Int → Bool) (s : Reader)
    (hf : s.isFlipping = false) (hlt : s.currentPage < s.totalPages)
    (hr : querySelector s (s.currentPage + 1) = none) :
    flipNext s = s ∧
    (completeFlipNext pdfDoc s).currentPage = s.currentPage ∧
    (goToPage pdfDoc s (s.currentPage + 2)).currentPage =
      max 1 (min (s.currentPage + 2) s.totalPages) := by
  have hq : s.book.find? (fun p => decide (p.dataPage = s.currentPage + 1)) = none := hr
  have hn : flipNext s = s := by
    unfold flipNext querySelector
    rw [if_neg (by rw [hf]; simp; omega)]
    simp only [hq, Option.isSome_none, Bool.false_eq_true, and_false, if_false]
    cases s
    simp only [] at hf
    rw [hf]
  refine ⟨hn, ?_, ?_⟩
  · unfold completeFlipNext
    rw [hn]
    unfold fireTimer
    have hnone : s.timers.get? s.timers.length = none := by simp
    rw [hnone]
  · rw [goToPage_eq]

theorem flipNext_aborts_without_right_page_witness :
    flipNext (readerAt 3 8 [⟨3, NavZone.prev⟩]) = readerAt 3 8 [⟨3, NavZone.prev⟩] ∧
    (goToPage pageFourFails (readerAt 3 8 [⟨3, NavZone.prev⟩]) (3 + 2)).currentPage = 5 :=
  ⟨(flipNext_aborts_without_right_page pageFourFails (readerAt 3 8 [⟨3, NavZone.prev⟩])
      rfl (by decide) rfl).1,
   (flipNext_aborts_without_right_page pageFourFails (readerAt 3 8 [⟨3, NavZone.prev⟩])
      rfl (by decide) rfl).2.2⟩

/-- C19 as stated fails. With `currentPage = 3`, `totalPages = 8` and page 4
not rendered, `#book` holds page 3 alone; `flipNext` sets no timer and the
reader stays at `currentPage = 3`, not `min(3 + 2, 8) = 5`. -/
theorem flipNext_right_page_failed_no_advance :
    (renderPages pageFourFails (readerAt 3 8 [])).book = [⟨3, NavZone.prev⟩] ∧
    (readerAt 3 8 [⟨3, NavZone.prev⟩]).isFlipping = false ∧
    (flipNext (readerAt 3 8 [⟨3, NavZone.prev⟩])).timers = [] ∧
    (completeFlipNext pageFourFails (readerAt 3 8 [⟨3, NavZone.prev⟩])).currentPage = 3 ∧
    (completeFlipNext pageFourFails (readerAt 3 8 [⟨3, NavZone.prev⟩])).currentPage ≠
      min (3 + 2) 8 := by
  decide

/-- C20, as the code has it. For every reader state and slider value `v`
with `1 ≤ v ≤ totalPages` and `v ≠ currentPage`, the slider input handler
ends in the state `goToPage(v)` ends in: same `currentPage`, same page-input
value, same progress write.  When `v = currentPage` the handler changes
nothing and issues no progress write. -/
theorem slider_matches_goToPage (pdfDoc : Int → Bool) (s : Reader) (v : Int) :
    (1 ≤ v → v ≤ s.totalPages → v ≠ s.currentPage →
      pageSliderInput pdfDoc s v = goToPage pdfDoc s v) ∧
    (v = s.currentPage →
      pageSliderInput pdfDoc s v = { s with pageSlider := v } ∧
      (pageSliderInput pdfDoc s v).saved = s.saved) := by
  constructor
  · intro h1 h2 hne
    have hmax : max 1 (min v s.totalPages) = v := by omega
    rw [goToPage_eq, hmax]
    simp only [pageSliderInput, renderPages_eq, updateNavigation, saveProgress]
    rw [if_pos hne]
  · intro heq
    have hs : pageSliderInput pdfDoc s v = { s with pageSlider := v } := by
      simp only [pageSliderInput]
      rw [if_neg (fun hne => hne heq)]
    exact ⟨hs, by rw [hs]⟩

theorem slider_matches_goToPage_witness :
    pageSliderInput allPagesRender (readerAt 3 10 []) 6 =
      goToPage allPagesRender (readerAt 3 10 []) 6 ∧
    (pageSliderInput allPagesRender (readerAt 3 10 []) 3).saved = [] :=
  ⟨(slider_matches_goToPage allPagesRender (readerAt 3 10 []) 6).1
      (by decide) (by decide) (by decide),
   ((slider_matches_goToPage allPagesRender (readerAt 3 10 []) 3).2 rfl).2⟩

/-- C20 as stated fails. With `currentPage = 3` and `totalPages = 10`, a
slider input of 3 issues no progress write while `goToPage(3)` issues one;
and a slider input of 0 leaves `currentPage = 0` while `goToPage(0)` leaves
`currentPage = 1`. -/
theorem slider_differs_from_goToPage :
    (pageSliderInput allPagesRender (readerAt 3 10 []) 3).saved = [] ∧
    (goToPage allPagesRender (readerAt 3 10 []) 3).saved = [⟨"7", 3, 10⟩] ∧
    (pageSliderInput allPagesRender (readerAt 3 10 []) 0).currentPage = 0 ∧
    (goToPage allPagesRender (readerAt 3 10 []) 0).currentPage = 1 := by
  decide

/-! ## Server: deleting a book -/

theorem bookExists_iff_selectBook (db : Db) (b : Int) :
    bookExists db b = (selectBook db b).isSome :=
  any_eq_find_isSome _ _

theorem bookExists_after_delete (db : Db) (b : Int) :
    bookExists { db with books := db.books.filter (fun r => decide (r.id ≠ b)) } b = false := by
  unfold bookExists
  simp only []
  apply any_false_of_filter_nil
  simp

/-- The branches of `DELETE /api/books/b` for an authenticated user `u`: when
no row `b` exists the route answers 404, when the row exists with another
uploader it answers 403, and in both cases the database and the stored files
are unchanged; the row is removed only if it existed with `uploaded_by = u`;
and when it exists with `uploaded_by = u` and the statement `DELETE FROM
books` does not throw, the request succeeds and the row is removed. -/
theorem deleteBook_owner_only (db : Db) (files : List String) (u b : Int) (hu : u ≠ 0) :
    (selectBook db b = none →
      deleteBook db files (some u) b = (db, files, Response.error 404 "Book not found")) ∧
    (∀ book, selectBook db b = some book → book.uploaded_by ≠ some u →
      deleteBook db files (some u) b =
        (db, files, Response.error 403 "Not authorized to delete this book")) ∧
    (bookExists db b = true → bookExists (deleteBook db files (some u) b).1 b = false →
      ∃ book, selectBook db b = some book ∧ book.uploaded_by = some u) ∧
    (∀ book, selectBook db b = some book → book.uploaded_by = some u →
      ¬ (db.foreign_keys = true ∧ db.bookReferenced b = true) →
      (deleteBook db files (some u) b).2.2 = Response.json ⟨true⟩ ∧
      (deleteBook db files (some u) b).1.books = db.books.filter (fun r => decide (r.id ≠ b)) ∧
      bookExists (deleteBook db files (some u) b).1 b = false) := by
  have hauth := requireAuth_some u hu
  refine ⟨?_, ?_, ?_, ?_⟩
  · intro hnone
    unfold deleteBook
    rw [hauth]
    simp only [hnone]
  · intro book hsome hne
    unfold deleteBook
    rw [hauth]
    simp only [hsome]
    rw [if_pos hne]
  · intro hex hgone
    cases hsel : selectBook db b with
    | none =>
        rw [bookExists_iff_selectBook, hsel] at hex
        exact absurd hex (by decide)
    | some book =>
        refine ⟨book, rfl, ?_⟩
        by_contra hne
        have hsame : (deleteBook db files (some u) b).1 = db := by
          unfold deleteBook
          rw [hauth]
          simp only [hsel]
          rw [if_pos hne]
        rw [hsame, hex] at hgone
        exact absurd hgone (by decide)
  · intro book hsome hown hfk
    have hrow : deleteBookRow db b =
        some { db with books := db.books.filter (fun r => decide (r.id ≠ b)) } := by
      unfold deleteBookRow
      rw [if_neg hfk]
    have hres : deleteBook db files (some u) b =
        ({ db with books := db.books.filter (fun r => decide (r.id ≠ b)) },
          (if book.cover_path ≠ "" ∧ includes book.cover_path "default-cover" = false then
            unlinkIfExists (unlinkIfExists files book.file_path) book.cover_path
          else unlinkIfExists files book.file_path),
          Response.json ⟨true⟩) := by
      unfold deleteBook
      rw [hauth]
      simp only [hsome, hrow]
      rw [if_neg (fun hne => hne hown)]
    rw [hres]
    exact ⟨rfl, rfl, bookExists_after_delete db b⟩

theorem deleteBook_owner_only_witness :
    deleteBook sampleDb sampleFiles (some 5) 8 =
      (sampleDb, sampleFiles, Response.error 404 "Book not found") ∧
    deleteBook sampleDb sampleFiles (some 6) 7 =
      (sampleDb, sampleFiles, Response.error 403 "Not authorized to delete this book") ∧
    bookExists (deleteBook sampleDb sampleFiles (some 5) 7).1 7 = false :=
  ⟨(deleteBook_owner_only sampleDb sampleFiles 5 8 (by decide)).1 (by decide),
   (deleteBook_owner_only sampleDb sampleFiles 6 7 (by decide)).2.1 (sampleBookRow 7)
      (by decide) (by decide),
   ((deleteBook_owner_only sampleDb sampleFiles 5 7 (by decide)).2.2.2 (sampleBookRow 7)
      (by decide) (by decide) (by decide)).2.2⟩

/-- C14 fails on the code. User 5 has opened the own book 7 in the reader, so
a `reading_progress` row refers to it. The row of book 7 exists with
`uploaded_by = 5`, and `DELETE /api/books/7` as user 5 unlinks the stored
PDF, then `DELETE FROM books` throws on the foreign key and the route
answers 500: the row is still there and names a file that is gone. -/
theorem deleteBook_referenced_book_stays :
    sampleDbWithProgress.foreign_keys = true ∧
    sampleDbWithProgress.reading_progress = [⟨1, 5, 7, 3, 10, 100⟩] ∧
    selectBook sampleDbWithProgress 7 = some (sampleBookRow 7) ∧
    (sampleBookRow 7).uploaded_by = some 5 ∧
    (sampleBookRow 7).file_path ∈ sampleFiles ∧
    (deleteBook sampleDbWithProgress sampleFiles (some 5) 7).2.2 =
      Response.error 500 "Failed to delete book" ∧
    bookExists (deleteBook sampleDbWithProgress sampleFiles (some 5) 7).1 7 = true ∧
    selectBook (deleteBook sampleDbWithProgress sampleFiles (some 5) 7).1 7 =
      some (sampleBookRow 7) ∧
    (deleteBook sampleDbWithProgress sampleFiles (some 5) 7).2.1 = ["/uploads/covers/c.png"] ∧
    (sampleBookRow 7).file_path ∉
      (deleteBook sampleDbWithProgress sampleFiles (some 5) 7).2.1 := by
  decide

/-! ## Server: accounts -/

theorem jsLength_ge_length (s : String) : s.length ≤ jsLength s := by
  unfold jsLength
  rw [show s.length = s.toList.length from rfl]
  induction s.toList with
  | nil => exact le_refl 0
  | cons c cs ih =>
      simp only [List.map_cons, List.sum_cons, List.length_cons]
      have hc : 1 ≤ utf16Units c := by unfold utf16Units; split_ifs <;> omega
      omega

theorem insertUser_eq (db : Db) (username email password_hash : String) (now : Nat)
    (h : selectUserByEmailOrUsername db email username = none) :
    insertUser db username email password_hash now =
      some { db with users := db.users ++ [⟨db.users_seq + 1, username, email, password_hash,
                                            now⟩],
                     users_seq := db.users_seq + 1 } := by
  unfold selectUserByEmailOrUsername at h
  rw [List.find?_eq_none] at h
  unfold insertUser
  rw [if_neg]
  intro hany
  rw [List.any_eq_true] at hany
  obtain ⟨u, hu, hp⟩ := hany
  have := h u hu
  simp only [decide_eq_true_eq] at this hp
  exact this hp.symm

theorem register_result (bcrypt : Bcrypt) (db : Db) (session : Session)
    (body : RegisterBody) (salt now : Nat) :
    (∃ status msg, register bcrypt db session body salt now =
      (db, session, Response.error status msg)) ∨
    (∃ username email password,
      body = ⟨some username, some email, some password⟩ ∧
      selectUserByEmailOrUsername db email username = none ∧
      register bcrypt db session body salt now =
        ({ db with users := db.users ++ [⟨db.users_seq + 1, username, email,
                                          bcrypt.hash password salt, now⟩],
                   users_seq := db.users_seq + 1 },
          ⟨some (db.users_seq + 1), some username⟩,
          Response.json ⟨true, ⟨db.users_seq + 1, username, email⟩⟩)) := by
  obtain ⟨bu, be, bp⟩ := body
  cases bu with
  | none => exact Or.inl ⟨400, _, rfl⟩
  | some username =>
    cases be with
    | none => exact Or.inl ⟨400, _, rfl⟩
    | some email =>
      cases bp with
      | none => exact Or.inl ⟨400, _, rfl⟩
      | some password =>
        simp only [register]
        split_ifs with h1 h2
        · exact Or.inl ⟨400, _, rfl⟩
        · exact Or.inl ⟨400, _, rfl⟩
        · cases hsel : selectUserByEmailOrUsername db email username with
          | some r => exact Or.inl ⟨400, _, rfl⟩
          | none =>
              refine Or.inr ⟨username, email, password, rfl, hsel, ?_⟩
              simp only [insertUser_eq db username email _ now hsel]

theorem register_rejects_clash (bcrypt : Bcrypt) (db : Db) (session : Session)
    (body : RegisterBody) (salt now : Nat)
    (hclash : ∃ u ∈ db.users, body.email = some u.email ∨ body.username = some u.username) :
    ∃ msg, register bcrypt db session body salt now = (db, session, Response.error 400 msg) := by
  obtain ⟨bu, be, bp⟩ := body
  cases bu with
  | none => exact ⟨_, rfl⟩
  | some username =>
    cases be with
    | none => exact ⟨_, rfl⟩
    | some email =>
      cases bp with
      | none => exact ⟨_, rfl⟩
      | some password =>
        simp only [register]
        split_ifs with h1 h2
        · exact ⟨_, rfl⟩
        · exact ⟨_, rfl⟩
        · cases hsel : selectUserByEmailOrUsername db email username with
          | some r => exact ⟨_, rfl⟩
          | none =>
              exfalso
              obtain ⟨u, hu, hc⟩ := hclash
              unfold selectUserByEmailOrUsername at hsel
              rw [List.find?_eq_none] at hsel
              have := hsel u hu
              simp only [decide_eq_true_eq, Option.some.injEq] at this hc
              exact this (hc.imp Eq.symm Eq.symm)

theorem register_unique (bcrypt : Bcrypt) (db : Db) (session : Session)
    (body : RegisterBody) (salt now : Nat) (h : usersUnique db) :
    usersUnique (register bcrypt db session body salt now).1 := by
  rcases register_result bcrypt db session body salt now with
    ⟨status, msg, hr⟩ | ⟨username, email, password, _, hsel, hr⟩
  · rw [hr]; exact h
  · rw [hr]
    unfold selectUserByEmailOrUsername at hsel
    rw [List.find?_eq_none] at hsel
    unfold usersUnique at h ⊢
    simp only [List.map_append, List.map_cons, List.map_nil]
    constructor
    · rw [List.nodup_append]
      refine ⟨h.1, List.nodup_singleton _, ?_⟩
      intro a ha hb
      simp only [List.mem_singleton] at hb
      rw [List.mem_map] at ha
      obtain ⟨u, hu, hua⟩ := ha
      have := hsel u hu
      simp only [decide_eq_true_eq] at this
      exact this (Or.inr (by rw [hua, hb]))
    · rw [List.nodup_append]
      refine ⟨h.2, List.nodup_singleton _, ?_⟩
      intro a ha hb
      simp only [List.mem_singleton] at hb
      rw [List.mem_map] at ha
      obtain ⟨u, hu, hua⟩ := ha
      have := hsel u hu
      simp only [decide_eq_true_eq] at this
      exact this (Or.inl (by rw [hua, hb]))

theorem registerAll_unique (bcrypt : Bcrypt) (reqs : List RegisterRequest) (db : Db)
    (h : usersUnique db) : usersUnique (registerAll bcrypt db reqs) := by
  induction reqs generalizing db with
  | nil => exact h
  | cons r reqs ih =>
      simp only [registerAll, List.foldl_cons]
      exact ih _ (register_unique bcrypt db r.session r.body r.salt r.now h)

/-- C15. From a `users` table in which no two rows share a username and no
two share an email, every sequence of `POST /api/auth/register` requests
leaves such a table; and a registration whose email or username is that of
an existing user is answered with status 400 and leaves the database and the
session unchanged. -/
theorem register_keeps_users_unique (bcrypt : Bcrypt) (db : Db) (reqs : List RegisterRequest)
    (h : usersUnique db) :
    usersUnique (registerAll bcrypt db reqs) ∧
    (∀ (db2 : Db) (session : Session) (body : RegisterBody) (salt now : Nat),
      (∃ u ∈ db2.users, body.email = some u.email ∨ body.username = some u.username) →
      ∃ msg, register bcrypt db2 session body salt now =
        (db2, session, Response.error 400 msg)) :=
  ⟨registerAll_unique bcrypt reqs db h,
   fun db2 session body salt now hclash =>
     register_rejects_clash bcrypt db2 session body salt now hclash⟩

theorem register_keeps_users_unique_witness :
    usersUnique sampleDb ∧
    usersUnique (registerAll sampleBcrypt sampleDb
      [⟨⟨none, none⟩, ⟨some "alice", some "alice@example.com", some "secret1"⟩, 1, 100⟩,
       ⟨⟨none, none⟩, ⟨some "alice", some "other@example.com", some "secret2"⟩, 2, 101⟩]) ∧
    ∃ msg, register sampleBcrypt sampleDb ⟨none, none⟩
      ⟨some "reader", some "new@example.com", some "secret1"⟩ 3 102 =
        (sampleDb, ⟨none, none⟩, Response.error 400 msg) :=
  ⟨⟨by decide, by decide⟩,
   (register_keeps_users_unique sampleBcrypt sampleDb _ ⟨by decide, by decide⟩).1,
   (register_keeps_users_unique sampleBcrypt sampleDb [] ⟨by decide, by decide⟩).2
      sampleDb ⟨none, none⟩ ⟨some "reader", some "new@example.com", some "secret1"⟩ 3 102
      ⟨sampleUser 5, by decide, Or.inr rfl⟩⟩

theorem registerAll_users_extend (bcrypt : Bcrypt) (reqs : List RegisterRequest) (db : Db) :
    ∃ ext, (registerAll bcrypt db reqs).users = db.users ++ ext := by
  induction reqs generalizing db with
  | nil => exact ⟨[], by simp [registerAll]⟩
  | cons r reqs ih =>
      simp only [registerAll, List.foldl_cons]
      obtain ⟨ext, hext⟩ := ih (register bcrypt db r.session r.body r.salt r.now).1
      simp only [registerAll] at hext
      rw [hext]
      rcases register_result bcrypt db r.session r.body r.salt r.now with
        ⟨status, msg, hr⟩ | ⟨username, email, password, _, _, hr⟩
      · rw [hr]; exact ⟨ext, rfl⟩
      · rw [hr]; exact ⟨_, List.append_assoc _ _ _⟩

theorem find_append_new {α : Type} (p : α → Bool) (l ext : List α) (x : α)
    (hl : ∀ a ∈ l, p a = false) (hx : p x = true) :
    (l ++ [x] ++ ext).find? p = some x := by
  induction l with
  | nil => simp [List.find?_cons, hx]
  | cons a l ih =>
      have ha : p a = false := hl a (List.mem_cons_self a l)
      simp only [List.cons_append, List.find?_cons, ha]
      exact ih (fun b hb => hl b (List.mem_cons_of_mem a hb))

/-- C16, as the code has it. For every non-empty username, non-empty email
and password of at least 6 characters that do not clash with an existing
user, registration succeeds, stores the new user's id in the session, and a
later login with the same email and password (after any further
registrations) succeeds and resolves to that same user id, provided
`bcrypt.compare` accepts the password against the hash stored for it. -/
theorem register_then_login (bcrypt : Bcrypt) (db : Db) (session session2 : Session)
    (username email password : String) (salt now : Nat) (reqs : List RegisterRequest)
    (hu : username ≠ "") (he : email ≠ "") (hp : 6 ≤ password.length)
    (hfree : ∀ u ∈ db.users, u.email ≠ email ∧ u.username ≠ username)
    (hbc : bcrypt.compare password (bcrypt.hash password salt) = true) :
    ∃ db' id,
      register bcrypt db session ⟨some username, some email, some password⟩ salt now =
        (db', ⟨some id, some username⟩, Response.json ⟨true, ⟨id, username, email⟩⟩) ∧
      login bcrypt (registerAll bcrypt db' reqs) session2 ⟨some email, some password⟩ =
        (⟨some id, some username⟩, Response.json ⟨true, ⟨id, username, email⟩⟩) := by
  have hjs : 6 ≤ jsLength password := le_trans hp (jsLength_ge_length password)
  have hpne : password ≠ "" := by
    intro h
    rw [h] at hp
    exact absurd hp (by decide)
  have hsel : selectUserByEmailOrUsername db email username = none := by
    unfold selectUserByEmailOrUsername
    rw [List.find?_eq_none]
    intro u hmem
    have := hfree u hmem
    simp only [decide_eq_true_eq]
    rintro (h1 | h2)
    · exact this.1 h1
    · exact this.2 h2
  have hreg : register bcrypt db session ⟨some username, some email, some password⟩ salt now =
      ({ db with users := db.users ++ [⟨db.users_seq + 1, username, email,
                                        bcrypt.hash password salt, now⟩],
                 users_seq := db.users_seq + 1 },
        ⟨some (db.users_seq + 1), some username⟩,
        Response.json ⟨true, ⟨db.users_seq + 1, username, email⟩⟩) := by
    simp only [register, truthy, hu, he, hpne, ne_eq, not_false_eq_true, decide_True,
      Bool.true_eq_false, or_self, if_false, hsel, insertUser_eq db username email _ now hsel]
    rw [if_neg (by omega)]
  refine ⟨_, db.users_seq + 1, hreg, ?_⟩
  obtain ⟨ext, hext⟩ := registerAll_users_extend bcrypt reqs
    { db with users := db.users ++ [⟨db.users_seq + 1, username, email,
                                      bcrypt.hash password salt, now⟩],
              users_seq := db.users_seq + 1 }
  have hfind : selectUserByEmail (registerAll bcrypt
      { db with users := db.users ++ [⟨db.users_seq + 1, username, email,
                                        bcrypt.hash password salt, now⟩],
                users_seq := db.users_seq + 1 } reqs) email =
      some ⟨db.users_seq + 1, username, email, bcrypt.hash password salt, now⟩ := by
    unfold selectUserByEmail
    rw [hext]
    apply find_append_new
    · intro a ha
      simp only [decide_eq_false_iff_not]
      exact (hfree a ha).1
    · simp
  simp only [login, truthy, he, hpne, ne_eq, not_false_eq_true, decide_True,
    Bool.true_eq_false, or_self, if_false, hfind, hbc]

theorem register_then_login_witness :
    ∃ db' id,
      register sampleBcrypt sampleDb ⟨none, none⟩
        ⟨some "alice", some "alice@example.com", some "secret1"⟩ 1 100 =
        (db', ⟨some id, some "alice"⟩,
          Response.json ⟨true, ⟨id, "alice", "alice@example.com"⟩⟩) ∧
      login sampleBcrypt
        (registerAll sampleBcrypt db'
          [⟨⟨none, none⟩, ⟨some "bob", some "bob@example.com", some "hunter22"⟩, 2, 101⟩])
        ⟨none, none⟩ ⟨some "alice@example.com", some "secret1"⟩ =
        (⟨some id, some "alice"⟩,
          Response.json ⟨true, ⟨id, "alice", "alice@example.com"⟩⟩) :=
  register_then_login sampleBcrypt sampleDb ⟨none, none⟩ ⟨none, none⟩ "alice"
    "alice@example.com" "secret1" 1 100
    [⟨⟨none, none⟩, ⟨some "bob", some "bob@example.com", some "hunter22"⟩, 2, 101⟩]
    (by decide) (by decide) (by decide) (by decide) (by decide)

/-- C16 as stated fails. The empty username, the email `new@example.com` and
the seven-character password `secret1` clash with no existing user, yet the
registration is answered with status 400 (`All fields are required`) and
neither a user row nor a session is created. -/
theorem register_empty_username_rejected :
    (6 ≤ "secret1".length) ∧
    selectUserByEmailOrUsername sampleDb "new@example.com" "" = none ∧
    register sampleBcrypt sampleDb ⟨none, none⟩
      ⟨some "", some "new@example.com", some "secret1"⟩ 1 100 =
      (sampleDb, ⟨none, none⟩, Response.error 400 "All fields are required") := by
  decide

/-! ## Reader: completed transitions -/

theorem timers_ne_append_singleton (l : List Timer) (t : Timer) : l ≠ l ++ [t] := by
  intro h
  have hlen := congrArg List.length h
  simp at hlen

theorem flipNext_started (s : Reader) (h : (flipNext s).timers ≠ s.timers) :
    flipNext s = { s with isFlipping := true, timers := s.timers ++ [Timer.flipNextCommit] } := by
  unfold flipNext at h ⊢
  simp only [] at h ⊢
  split_ifs at h ⊢ with h1 h2
  · exact absurd rfl h
  · rfl
  · exact absurd rfl h

theorem completeFlipNext_started (pdfDoc : Int → Bool) (s : Reader)
    (h : (flipNext s).timers ≠ s.timers) :
    completeFlipNext pdfDoc s =
      runTimer pdfDoc { s with isFlipping := true } Timer.flipNextCommit := by
  have hs := flipNext_started s h
  unfold completeFlipNext
  rw [fireTimer_last pdfDoc (flipNext s) s.timers Timer.flipNextCommit (by rw [hs]), hs]

theorem flipPrev_started (pdfDoc : Int → Bool) (s : Reader)
    (h : (flipPrev pdfDoc s).timers ≠ s.timers) :
    ∃ bk, flipPrev pdfDoc s =
      { s with isFlipping := true, book := bk,
               timers := s.timers ++
                 [Timer.flipPrevAnimate (s.currentPage - 2) (s.currentPage - 1)] } := by
  unfold flipPrev renderPage at h ⊢
  simp only [] at h ⊢
  split_ifs at h ⊢ <;> first | exact absurd rfl h | exact ⟨_, rfl⟩

theorem completeFlipPrev_started (pdfDoc : Int → Bool) (s : Reader)
    (h : (flipPrev pdfDoc s).timers ≠ s.timers) :
    ∃ bk, completeFlipPrev pdfDoc s =
      runTimer pdfDoc { s with isFlipping := true, book := bk } Timer.flipPrevCommit := by
  obtain ⟨bk, hs⟩ := flipPrev_started pdfDoc s h
  refine ⟨bk, ?_⟩
  unfold completeFlipPrev
  rw [fireTimer_last pdfDoc (flipPrev pdfDoc s) s.timers
    (Timer.flipPrevAnimate (s.currentPage - 2) (s.currentPage - 1)) (by rw [hs]), hs]
  have ha : ∀ (x : Reader) (a b : Int), runTimer pdfDoc x (Timer.flipPrevAnimate a b) =
      { x with timers := x.timers ++ [Timer.flipPrevCommit] } := fun _ _ _ => rfl
  rw [ha, fireTimer_last pdfDoc _ s.timers Timer.flipPrevCommit rfl]

/-- C21. Every `goToPage` call issues exactly one progress write; every
completed `flipNext` (the call queued its commit timer and the timer fired)
and every completed `flipPrev` (the call queued its timer, and that timer
and the commit timer fired) issues exactly one progress write; the `flipNext`
and `flipPrev` calls themselves issue none.  The body of the write holds the
reader's `bookId`, `currentPage` and `totalPages` as they are once the
transition has settled. -/
theorem one_progress_write_per_settle (pdfDoc : Int → Bool) (s : Reader) (n : Int) :
    (goToPage pdfDoc s n).saved =
      s.saved ++ [⟨(goToPage pdfDoc s n).bookId, (goToPage pdfDoc s n).currentPage,
                   (goToPage pdfDoc s n).totalPages⟩] ∧
    ((flipNext s).timers ≠ s.timers →
      (completeFlipNext pdfDoc s).saved =
        s.saved ++ [⟨(completeFlipNext pdfDoc s).bookId, (completeFlipNext pdfDoc s).currentPage,
                     (completeFlipNext pdfDoc s).totalPages⟩]) ∧
    ((flipPrev pdfDoc s).timers ≠ s.timers →
      (completeFlipPrev pdfDoc s).saved =
        s.saved ++ [⟨(completeFlipPrev pdfDoc s).bookId, (completeFlipPrev pdfDoc s).currentPage,
                     (completeFlipPrev pdfDoc s).totalPages⟩]) ∧
    (flipNext s).saved = s.saved ∧
    (flipPrev pdfDoc s).saved = s.saved := by
  refine ⟨?_, ?_, ?_, ?_, ?_⟩
  · rw [goToPage_eq]
  · intro h
    rw [completeFlipNext_started pdfDoc s h]
    simp only [runTimer, goToPage_eq, renderPages_eq]
    split_ifs <;> rfl
  · intro h
    obtain ⟨bk, hs⟩ := completeFlipPrev_started pdfDoc s h
    rw [hs]
    simp only [runTimer, goToPage_eq, renderPages_eq]
  · unfold flipNext
    simp only []
    split_ifs <;> rfl
  · unfold flipPrev renderPage
    simp only []
    split_ifs <;> rfl

theorem one_progress_write_per_settle_witness :
    (flipNext (readerAt 3 10 [⟨3, NavZone.prev⟩, ⟨4, NavZone.next⟩])).timers ≠
      (readerAt 3 10 [⟨3, NavZone.prev⟩, ⟨4, NavZone.next⟩]).timers ∧
    (completeFlipNext allPagesRender
      (readerAt 3 10 [⟨3, NavZone.prev⟩, ⟨4, NavZone.next⟩])).saved = [⟨"7", 5, 10⟩] ∧
    (completeFlipPrev allPagesRender
      (readerAt 3 10 [⟨3, NavZone.prev⟩, ⟨4, NavZone.next⟩])).saved = [⟨"7", 1, 10⟩] :=
  ⟨by decide,
   (one_progress_write_per_settle allPagesRender
      (readerAt 3 10 [⟨3, NavZone.prev⟩, ⟨4, NavZone.next⟩]) 0).2.1 (by decide),
   (one_progress_write_per_settle allPagesRender
      (readerAt 3 10 [⟨3, NavZone.prev⟩, ⟨4, NavZone.next⟩]) 0).2.2.1 (by decide)⟩

/-- C23. For every reader state with `1 ≤ currentPage` and `currentPage + 2
≤ totalPages`, a completed `flipNext` (the call queues its commit timer,
which it only does with `isFlipping` false, and the timer fires) moves to
`currentPage + 2`, and a completed `flipPrev` after it (the call queues its
timer; it and the commit timer fire) restores the original `currentPage`,
with the lock released. -/
theorem flipNext_then_flipPrev_restores (pdfDoc : Int → Bool) (s : Reader)
    (h1 : 1 ≤ s.currentPage) (h2 : s.currentPage + 2 ≤ s.totalPages)
    (hnext : (flipNext s).timers ≠ s.timers)
    (hprev : (flipPrev pdfDoc (completeFlipNext pdfDoc s)).timers ≠
      (completeFlipNext pdfDoc s).timers) :
    (completeFlipNext pdfDoc s).currentPage = s.currentPage + 2 ∧
    (completeFlipPrev pdfDoc (completeFlipNext pdfDoc s)).currentPage = s.currentPage ∧
    (completeFlipPrev pdfDoc (completeFlipNext pdfDoc s)).isFlipping = false := by
  have hn := completeFlipNext_started pdfDoc s hnext
  have hc : (completeFlipNext pdfDoc s).currentPage = s.currentPage + 2 := by
    rw [hn]
    simp only [runTimer, goToPage_eq, renderPages_eq]
    split_ifs <;> dsimp only <;> omega
  have ht : (completeFlipNext pdfDoc s).totalPages = s.totalPages := by
    rw [hn]
    simp only [runTimer, goToPage_eq, renderPages_eq]
    split_ifs <;> rfl
  obtain ⟨bk, hp⟩ := completeFlipPrev_started pdfDoc (completeFlipNext pdfDoc s) hprev
  refine ⟨hc, ?_, ?_⟩
  · rw [hp]
    simp only [runTimer, goToPage_eq, renderPages_eq]
    rw [hc, ht]
    omega
  · rw [hp]
    simp only [runTimer]

theorem flipNext_then_flipPrev_restores_witness :
    (completeFlipPrev allPagesRender (completeFlipNext allPagesRender
      (readerAt 3 10 [⟨3, NavZone.prev⟩, ⟨4, NavZone.next⟩]))).currentPage = 3 :=
  (flipNext_then_flipPrev_restores allPagesRender
    (readerAt 3 10 [⟨3, NavZone.prev⟩, ⟨4, NavZone.next⟩])
    (by decide) (by decide) (by decide) (by decide)).2.1

/-- C26 fails on the code. A successful `loadBook` of the book titled
`Walden` by `Thoreau` sets the title element to `Walden` and the author
element to `by Walden`: line 75 interpolates `bookData.book.title` where the
author belongs. -/
theorem loadBook_author_element_shows_title :
    (loadBook allPagesRender (initialReader "7") (some sampleBook) (some 1)
      (some 5)).bookTitle = "Walden" ∧
    (loadBook allPagesRender (initialReader "7") (some sampleBook) (some 1)
      (some 5)).bookAuthor = "by Walden" ∧
    (loadBook allPagesRender (initialReader "7") (some sampleBook) (some 1)
      (some 5)).bookAuthor ≠ "by " ++ sampleBook.author := by
  decide

/-! ## Server: frame properties -/

theorem deleteBook_reading_progress (db : Db) (files : List String) (session : Option Int)
    (b : Int) :
    (deleteBook db files session b).1.reading_progress = db.reading_progress := by
  unfold deleteBook
  cases requireAuth session with
  | none => rfl
  | some userId =>
      simp only []
      cases selectBook db b with
      | none => rfl
      | some book =>
          simp only []
          split_ifs
          · rfl
          · unfold deleteBookRow
            split_ifs <;> rfl
          · unfold deleteBookRow
            split_ifs <;> rfl

theorem deleteBook_db (db : Db) (files : List String) (session : Option Int) (b : Int) :
    ((deleteBook db files session b).1 = db ∧
      (deleteBook db files session b).2.2 ≠ Response.json ⟨true⟩) ∨
    (¬ (db.foreign_keys = true ∧ db.bookReferenced b = true) ∧
      (deleteBook db files session b).1 =
        { db with books := db.books.filter (fun r => decide (r.id ≠ b)) }) := by
  unfold deleteBook
  cases requireAuth session with
  | none => exact Or.inl ⟨rfl, fun h => Response.noConfusion h⟩
  | some userId =>
      simp only []
      cases selectBook db b with
      | none => exact Or.inl ⟨rfl, fun h => Response.noConfusion h⟩
      | some book =>
          simp only []
          by_cases hown : book.uploaded_by ≠ some userId
          · rw [if_pos hown]
            exact Or.inl ⟨rfl, fun h => Response.noConfusion h⟩
          · rw [if_neg hown]
            by_cases hfk : db.foreign_keys = true ∧ db.bookReferenced b = true
            · have hrow : deleteBookRow db b = none := by
                unfold deleteBookRow
                rw [if_pos hfk]
              simp only [hrow]
              exact Or.inl ⟨trivial, fun h => Response.noConfusion h⟩
            · have hrow : deleteBookRow db b =
                  some { db with books := db.books.filter (fun r => decide (r.id ≠ b)) } := by
                unfold deleteBookRow
                rw [if_neg hfk]
              simp only [hrow]
              exact Or.inr ⟨hfk, trivial⟩

theorem bookReferenced_of_progress (db : Db) (r : ProgressRow) (h : r ∈ db.reading_progress) :
    db.bookReferenced r.book_id = true := by
  unfold Db.bookReferenced
  rw [Bool.or_eq_true]
  exact Or.inl (List.any_eq_true.mpr ⟨r, h, by simp⟩)

theorem bookExists_filter_other (db : Db) (b c : Int) (hne : c ≠ b)
    (h : bookExists db c = true) :
    bookExists { db with books := db.books.filter (fun r => decide (r.id ≠ b)) } c = true := by
  unfold bookExists at h ⊢
  simp only [List.any_eq_true, decide_eq_true_eq, List.mem_filter] at h ⊢
  obtain ⟨x, hx, hid⟩ := h
  exact ⟨x, ⟨hx, by rw [hid]; exact hne⟩, hid⟩

/-- C22, as the code has it. The server enforces foreign keys. Every
`DELETE /api/books/b` leaves the `reading_progress` table as it was; a
request that succeeds had no `reading_progress` row of book `b` before it;
and no row is orphaned: when the book of every row exists before the
request, the book of every row exists after it. -/
theorem deleteBook_keeps_progress (db : Db) (files : List String) (session : Option Int)
    (b : Int) (hfk : db.foreign_keys = true) :
    (deleteBook db files session b).1.reading_progress = db.reading_progress ∧
    ((deleteBook db files session b).2.2 = Response.json ⟨true⟩ →
      ∀ r ∈ db.reading_progress, r.book_id ≠ b) ∧
    ((∀ r ∈ db.reading_progress, bookExists db r.book_id = true) →
      ∀ r ∈ (deleteBook db files session b).1.reading_progress,
        bookExists (deleteBook db files session b).1 r.book_id = true) := by
  have hp := deleteBook_reading_progress db files session b
  have href : ¬ (db.foreign_keys = true ∧ db.bookReferenced b = true) →
      ∀ r ∈ db.reading_progress, r.book_id ≠ b := by
    intro hno r hr hb
    exact hno ⟨hfk, by rw [← hb]; exact bookReferenced_of_progress db r hr⟩
  refine ⟨hp, ?_, ?_⟩
  · intro hok
    rcases deleteBook_db db files session b with ⟨_, hne⟩ | ⟨hno, _⟩
    · exact absurd hok hne
    · exact href hno
  · intro hall r hr
    rw [hp] at hr
    rcases deleteBook_db db files session b with ⟨hsame, _⟩ | ⟨hno, hdb⟩
    · rw [hsame]
      exact hall r hr
    · rw [hdb]
      exact bookExists_filter_other db b r.book_id (href hno r hr) (hall r hr)

theorem deleteBook_keeps_progress_witness :
    sampleDbTwoBooks.foreign_keys = true ∧
    (deleteBook sampleDbTwoBooks sampleFiles (some 5) 8).2.2 = Response.json ⟨true⟩ ∧
    bookExists (deleteBook sampleDbTwoBooks sampleFiles (some 5) 8).1 8 = false ∧
    (deleteBook sampleDbTwoBooks sampleFiles (some 5) 8).1.reading_progress =
      [⟨1, 5, 7, 3, 10, 100⟩] ∧
    bookExists (deleteBook sampleDbTwoBooks sampleFiles (some 5) 8).1 7 = true :=
  ⟨by decide, by decide, by decide,
   (deleteBook_keeps_progress sampleDbTwoBooks sampleFiles (some 5) 8 (by decide)).1.trans
     (by decide),
   (deleteBook_keeps_progress sampleDbTwoBooks sampleFiles (some 5) 8 (by decide)).2.2
     (by decide) ⟨1, 5, 7, 3, 10, 100⟩ (by decide)⟩

/-- C22 as stated fails. In a database with books 7 and 8, both uploaded by
user 5, and a `reading_progress` row of user 5 for book 7,
`DELETE /api/books/7` as user 5 answers 500 and book 7 stays, and no
request at all deletes book 7 with success while the row is there: the row
of book 7 is never left behind without its book. -/
theorem deleteBook_progress_row_not_orphaned :
    sampleDbTwoBooks.foreign_keys = true ∧
    sampleDbTwoBooks.reading_progress = [⟨1, 5, 7, 3, 10, 100⟩] ∧
    selectBook sampleDbTwoBooks 7 = some (sampleBookRow 7) ∧
    (sampleBookRow 7).uploaded_by = some 5 ∧
    (deleteBook sampleDbTwoBooks sampleFiles (some 5) 7).2.2 =
      Response.error 500 "Failed to delete book" ∧
    bookExists (deleteBook sampleDbTwoBooks sampleFiles (some 5) 7).1 7 = true ∧
    (¬ ∃ files session,
      (deleteBook sampleDbTwoBooks files session 7).2.2 = Response.json ⟨true⟩) ∧
    (¬ ∃ files session,
      (⟨1, 5, 7, 3, 10, 100⟩ : ProgressRow) ∈
        (deleteBook sampleDbTwoBooks files session 7).1.reading_progress ∧
      bookExists (deleteBook sampleDbTwoBooks files session 7).1 7 = false) := by
  have hnever : ∀ files session,
      (deleteBook sampleDbTwoBooks files session 7).1 = sampleDbTwoBooks ∧
      (deleteBook sampleDbTwoBooks files session 7).2.2 ≠ Response.json ⟨true⟩ := by
    intro files session
    rcases deleteBook_db sampleDbTwoBooks files session 7 with h | ⟨hno, _⟩
    · exact h
    · exact absurd (by decide) hno
  refine ⟨by decide, by decide, by decide, by decide, by decide, by decide, ?_, ?_⟩
  · rintro ⟨files, session, hok⟩
    exact (hnever files session).2 hok
  · rintro ⟨files, session, _, hgone⟩
    rw [(hnever files session).1] at hgone
    exact absurd hgone (by decide)

theorem postProgress_rows (db : Db) (session : Option Int) (body : ProgressBody) (now : Nat) :
    (postProgress db session body now).1 = db ∨
    ∃ u b row, requireAuth session = some u ∧ body.bookId = some b ∧
      row.user_id = u ∧ row.book_id = b ∧
      (postProgress db session body now).1.reading_progress =
        db.reading_progress.filter (fun r => !decide (r.user_id = u ∧ r.book_id = b)) ++
          [row] := by
  unfold postProgress
  cases hu : requireAuth session with
  | none => exact Or.inl rfl
  | some u =>
      simp only []
      cases hb : body.bookId with
      | none => exact Or.inl rfl
      | some b =>
          cases hi : insertOrReplaceProgress db u (some b)
              (orDefault (body.currentPage.map jsonInteger) 1)
              (orDefault (body.totalPages.map jsonInteger) 0) now with
          | none => exact Or.inl rfl
          | some d =>
              refine Or.inr ⟨u, b,
                ⟨db.reading_progress_seq + 1, u, b,
                  orDefault (body.currentPage.map jsonInteger) 1,
                  orDefault (body.totalPages.map jsonInteger) 0, now⟩, rfl, rfl, rfl, rfl, ?_⟩
              exact insertOrReplaceProgress_rows db d u b _ _ now hi

/-- C25. For every `POST /api/progress` as user `u` for book `b` and every
row `r` whose `(user_id, book_id)` differs from `(u, b)`: `r` is in the table
after the request exactly if it was in it before (so it keeps its
`current_page` and `total_pages`, and no such row is created or removed),
and the rows of every other pair are the same list as before. -/
theorem postProgress_frame (db : Db) (u b : Int) (cp tp : Option Int) (now : Nat) :
    (∀ r : ProgressRow, ¬ (r.user_id = u ∧ r.book_id = b) →
      (r ∈ (postProgress db (some u) ⟨some b, cp, tp⟩ now).1.reading_progress ↔
        r ∈ db.reading_progress)) ∧
    (∀ u2 b2 : Int, ¬ (u2 = u ∧ b2 = b) →
      (postProgress db (some u) ⟨some b, cp, tp⟩ now).1.reading_progress.filter
          (fun r => decide (r.user_id = u2 ∧ r.book_id = b2)) =
        db.reading_progress.filter (fun r => decide (r.user_id = u2 ∧ r.book_id = b2))) := by
  rcases postProgress_rows db (some u) ⟨some b, cp, tp⟩ now with
    hsame | ⟨u1, b1, row, hu, hb, hru, hrb, hrows⟩
  · rw [hsame]
    exact ⟨fun _ _ => Iff.rfl, fun _ _ _ => rfl⟩
  · obtain ⟨hs, _⟩ := requireAuth_eq_some _ _ hu
    simp only [Option.some.injEq] at hs hb
    subst hs
    subst hb
    rw [hrows]
    constructor
    · intro r hr
      simp only [List.mem_append, List.mem_filter, List.mem_singleton, Bool.not_eq_true',
        decide_eq_false_iff_not]
      constructor
      · rintro (⟨hmem, _⟩ | heq)
        · exact hmem
        · exact absurd ⟨by rw [heq, hru], by rw [heq, hrb]⟩ hr
      · intro hmem
        exact Or.inl ⟨hmem, hr⟩
    · intro u2 b2 hne
      rw [List.filter_append, filter_after_delete_other]
      · have hrow : ¬ (row.user_id = u2 ∧ row.book_id = b2) := by
          rw [hru, hrb]
          exact fun hh => hne ⟨hh.1.symm, hh.2.symm⟩
        simp [List.filter_cons, hrow]
      · intro x hx
        simp only [decide_eq_true_eq] at hx
        simp only [decide_eq_false_iff_not]
        rintro ⟨h1, h2⟩
        exact hne ⟨by rw [← hx.1, h1], by rw [← hx.2, h2]⟩

theorem postProgress_frame_witness :
    (⟨1, 5, 7, 3, 10, 100⟩ : ProgressRow) ∈
      (postProgress sampleDbTwoBooks (some 5) ⟨some 8, some 4, some 20⟩ 200).1.reading_progress ∧
    (postProgress sampleDbTwoBooks (some 5) ⟨some 8, some 4, some 20⟩ 200).1.reading_progress =
      [⟨1, 5, 7, 3, 10, 100⟩, ⟨2, 5, 8, 4, 20, 200⟩] :=
  ⟨((postProgress_frame sampleDbTwoBooks 5 8 (some 4) (some 20) 200).1 ⟨1, 5, 7, 3, 10, 100⟩
      (by decide)).2 (by decide),
   by decide⟩

/-! ## Server: uploading a book -/

theorem publicPath_pdf (extname : String → String) (uuid : String) (file : IncomingFile)
    (h : file.mimetype = "application/pdf") :
    (storeFile extname uuid file).publicPath =
      "/uploads/books/" ++ filename extname uuid file := by
  unfold StoredFile.publicPath storeFile destination
  rw [if_pos h]
  rfl

theorem publicPath_not_pdf (extname : String → String) (uuid : String) (file : IncomingFile)
    (h : file.mimetype ≠ "application/pdf") :
    (storeFile extname uuid file).publicPath =
      "/uploads/covers/" ++ filename extname uuid file := by
  unfold StoredFile.publicPath storeFile destination
  rw [if_neg h]
  rfl

/-- C24 fails on the code. User 5 uploads a `book` part of mimetype
`image/png`, which the file filter accepts. The request succeeds; multer
stores the file under `/uploads/covers/u1.png` (the destination goes by
mimetype), while the new book row and the response record the `file_path`
`/uploads/books/u1.png`, a path at which no file was stored. -/
theorem upload_png_book_recorded_elsewhere :
    fileFilter ⟨"scan.png", "image/png"⟩ = true ∧
    (postBook pngExtname sampleDb sampleFiles (some 5) pngBookUpload "u1" "u2" 200).2.2 =
      Response.json ⟨true, ⟨8, "Walden", "Thoreau", "/uploads/books/u1.png",
        "/lib/default-cover.svg"⟩⟩ ∧
    (postBook pngExtname sampleDb sampleFiles (some 5) pngBookUpload "u1" "u2" 200).1.books =
      [sampleBookRow 7, ⟨8, "Walden", "Thoreau", "", "/uploads/books/u1.png",
        "/lib/default-cover.svg", some 5, 200⟩] ∧
    (storeFile pngExtname "u1" ⟨"scan.png", "image/png"⟩).publicPath =
      "/uploads/covers/u1.png" ∧
    (postBook pngExtname sampleDb sampleFiles (some 5) pngBookUpload "u1" "u2" 200).2.1 =
      ["/uploads/books/w.pdf", "/uploads/covers/c.png", "/uploads/covers/u1.png"] ∧
    "/uploads/books/u1.png" ∉
      (postBook pngExtname sampleDb sampleFiles (some 5) pngBookUpload "u1" "u2" 200).2.1 := by
  decide

end OpenLeaf
